import Mathlib

/-!
Verification of the `dgraum/datapower-ansible` task modules
(`idg_domain_chkpoint.py`, `idg_domain_config.py`, `idg_domain_discovery.py`).

The modules are shallowly embedded: a module invocation is a pure function
from the HTTP responses the device would give (an environment record) to the
final outcome (an `exit_json` result record or a `fail_json` message).  JSON
bodies are modelled by the `Json` inductive below; Python `dict` access
`d['k']` is modelled by `Json.getField` returning `Option Json`, a `none`
standing for the `KeyError`/`TypeError` that the modules' outermost
`except Exception` turns into a fatal `fail_json`.

Helper code living in the repository's `module_utils` files
(`idg_common.py`, `idg_rest_mgmt.py`) is not part of the provided sources;
those few constants and functions are modelled from the spec and are marked
`Modelled from the spec:` in their doc comments.
-/

namespace DPAnsible

/-- JSON values as decoded from the device management API responses
(`json` bodies handed to the modules by `IDGApi.api_call`).  Numbers are
modelled as integers; object fields keep their insertion order, as Python
dicts do. -/
inductive Json where
  | null
  | bool (b : Bool)
  | num (n : Int)
  | str (s : String)
  | arr (l : List Json)
  | obj (fields : List (String × Json))

/-- First binding of a key in an ordered association list (Python dicts have
unique keys, so the first binding is the binding). -/
def assocFind : List (String × Json) → String → Option Json
  | [], _ => none
  | (k0, v) :: rest, k => if k0 = k then some v else assocFind rest k

/-- Python `d[k]` on a decoded JSON value: `none` models the exception raised
when `d` is not a dict or lacks the key. -/
def Json.getField : Json → String → Option Json
  | .obj fields, k => assocFind fields k
  | _, _ => none

/-- Python `x == s` for a string literal `s`: equal only when `x` is the same
string (a non-string JSON value never equals a `str`). -/
def isStrEq (j : Json) (s : String) : Bool :=
  match j with
  | .str t => t == s
  | _ => false

/-- Equality of JSON scalars, as Python `==`/dict-key equality on decoded
`null`/`bool`/number/string values.  Containers are never equal here; they
are not hashable and can never have been stored as dict keys. -/
def scalarEq : Json → Json → Bool
  | .null, .null => true
  | .bool a, .bool b => a == b
  | .num a, .num b => a == b
  | .str a, .str b => a == b
  | _, _ => false

/-- Python hashability of a decoded JSON value: lists and dicts raise
`TypeError` when used as dict keys. -/
def pyHashable : Json → Bool
  | .arr _ => false
  | .obj _ => false
  | _ => true

/-- One step of `get_status_summary`'s loop body
(`idg_domain_config.py:239-242`): insert the status with count 1 if absent,
else increment its count, keeping insertion order. -/
def bump : List (Json × Nat) → Json → List (Json × Nat)
  | [], k => [(k, 1)]
  | (k0, n) :: rest, k =>
    if scalarEq k0 k then (k0, n + 1) :: rest else (k0, n) :: bump rest k

/-- Count stored for a status key in the summary dict (0 when absent). -/
def cntOf : List (Json × Nat) → Json → Nat
  | [], _ => 0
  | (k0, n) :: rest, k => if scalarEq k0 k then n else cntOf rest k

/-- Sum of all counts in the summary dict. -/
def sumVals : List (Json × Nat) → Nat
  | [] => 0
  | (_, n) :: rest => n + sumVals rest

/-- Loop of `get_status_summary` (`idg_domain_config.py:236-243`) over the
remaining entries, accumulating the summary dict; `none` models the
exception raised when an entry has no `status` key, is not a dict, or has an
unhashable status value. -/
def get_status_summary_go : List (Json × Nat) → List Json → Option (List (Json × Nat))
  | s, [] => some s
  | s, i :: rest =>
    match i.getField "status" with
    | some st => if pyHashable st then get_status_summary_go (bump s st) rest else none
    | none => none

/-- `get_status_summary` (`idg_domain_config.py:236-243`): the dictionary
mapping each occurring `status` value to its number of occurrences. -/
def get_status_summary (l : List Json) : Option (List (Json × Nat)) :=
  get_status_summary_go [] l

/-- Python `p.startswith`-style check on character lists: `p` begins `l`. -/
def startsWithL : List Char → List Char → Bool
  | [], _ => true
  | _ :: _, [] => false
  | a :: as, b :: bs => a == b && startsWithL as bs

/-- Auxiliary scan for substring containment over character lists. -/
def containsSub (p : List Char) : List Char → Bool
  | [] => startsWithL p []
  | c :: rest => startsWithL p (c :: rest) || containsSub p rest

/-- Python `pat in s` for strings: contiguous substring containment. -/
def strContains (pat s : String) : Bool :=
  containsSub pat.data s.data

/-- Python `pat in x` where `x` is a decoded JSON value: substring test on
strings, membership on lists, key membership on dicts; `none` models the
`TypeError` raised on the remaining shapes. -/
def pyContains (pat : String) (j : Json) : Option Bool :=
  match j with
  | .str s => some (strContains pat s)
  | .arr l => some (l.any (fun x => isStrEq x pat))
  | .obj f => some (f.any (fun p => p.1 == pat))
  | _ => none

/-- Python `s.capitalize()`: first character upper-cased, the rest
lower-cased (ASCII view, which covers the device's status labels). -/
def pyCapitalize (s : String) : String :=
  match s.data with
  | [] => ""
  | c :: rest => String.mk (c.toUpper :: rest.map Char.toLower)

mutual
/-- Rendering of a JSON value as `json.dumps` produces it (used by the
modules only inside failure messages). -/
def jdump : Json → String
  | .null => "null"
  | .bool b => if b then "true" else "false"
  | .num n => toString n
  | .str s => "\"" ++ s ++ "\""
  | .arr l => "[" ++ jdumpList l ++ "]"
  | .obj l => "\x7b" ++ jdumpObj l ++ "\x7d"

/-- Comma-separated rendering of a JSON array's members. -/
def jdumpList : List Json → String
  | [] => ""
  | [x] => jdump x
  | x :: y :: xs => jdump x ++ ", " ++ jdumpList (y :: xs)

/-- Comma-separated rendering of a JSON object's fields. -/
def jdumpObj : List (String × Json) → String
  | [] => ""
  | [(k, v)] => "\"" ++ k ++ "\": " ++ jdump v
  | (k, v) :: y :: xs => "\"" ++ k ++ "\": " ++ jdump v ++ ", " ++ jdumpObj (y :: xs)
end

/-- Key under which a status value appears once the summary dict is placed
into the produced result record (status values are string labels in
practice, rendered verbatim). -/
def statusKeyStr : Json → String
  | .str s => s
  | j => jdump j

/-- The summary dict as a JSON object, as it appears inside the produced
result record. -/
def statusObjOf (s : List (Json × Nat)) : Json :=
  .obj (s.map (fun p => (statusKeyStr p.1, Json.num p.2)))

/-- Normalization applied to one nested import-result collection
(`idg_domain_config.py:556-575`, `589-607`, `609-627`): look up the inner
field (`cfg-result`, `file`, `object`); a list becomes
`summary`(`total`/`status`) plus `detail`, anything else is kept unchanged;
a failed lookup or a failing summary falls back to the whole container, as
the `except` clauses do. -/
def norm_nested (ok ik : String) (container : Json) : Json :=
  match container.getField ik with
  | none => .obj [(ok, container)]
  | some (.arr l) =>
    match get_status_summary l with
    | none => .obj [(ok, container)]
    | some s =>
      .obj [(ok, .obj [("summary", .obj [("total", .num l.length), ("status", statusObjOf s)]),
                       ("detail", .arr l)])]
  | some inner => .obj [(ok, inner)]

/-- Contribution of one nested collection to the produced `results` list: no
entry at all when the outer key is absent (the outer `except ... pass`),
else the normalized collection. -/
def norm_section (ok ik : String) (importResults : Json) : Option Json :=
  (importResults.getField ok).map (norm_nested ok ik)

/-- The `file-copy-log` entry (`idg_domain_config.py:577-581`): both lookups
must succeed, else the entry is skipped. -/
def fileCopySection (ir : Json) : Option Json :=
  ((ir.getField "file-copy-log").bind (fun v => v.getField "file-result")).map
    (fun v => Json.obj [("file-copy-log", v)])

/-- The `imported-debug` entry (`idg_domain_config.py:583-587`). -/
def importedDebugSection (ir : Json) : Option Json :=
  (ir.getField "imported-debug").map (fun v => Json.obj [("imported-debug", v)])

/-! Constants and helpers from the repository's `module_utils` files
(`idg_common.py`, `idg_rest_mgmt.py`), which are not among the provided
sources; each is modelled from the spec. -/

/-- Modelled from the spec: `IDGUtils.IMMUTABLE_MESSAGE` from the missing
`idg_common.py`, the configured "already in desired state" message reported
for idempotent no-ops (spec §4.4, §8). -/
def IMMUTABLE_MESSAGE : String := "Domain configuration is already in the desired state."

/-- Modelled from the spec: `IDGUtils.UNCONTROLLED_EXCEPTION` from the
missing `idg_common.py`, the prefix of the fatal message produced when an
unexpected exception reaches the modules' outermost handler. -/
def UNCONTROLLED_EXCEPTION : String := "Uncontrolled exception"

/-- Fatal message built by the modules' `except Exception` handler:
`(IDGUtils.UNCONTROLLED_EXCEPTION + '. {0}').format(to_native(e))`, with the
exception's own text as detail. -/
def uncontrolled (detail : String) : String :=
  UNCONTROLLED_EXCEPTION ++ ". " ++ detail

/-- Modelled from the spec: `IDGApi.GENERAL_ERROR` from the missing
`idg_rest_mgmt.py`; per spec §4.4 hard device errors are "formatted with the
module name, requested state, domain name, and the device's raw error
payload" (the raw payload is appended by the caller). -/
def GENERAL_ERROR (moduleName state domain : String) : String :=
  "Module " ++ moduleName ++ ": error trying to reach state " ++ state ++
    " in domain " ++ domain ++ ". "

/-- Modelled from the spec: `IDGApi.ERROR_RETRIEVING_RESULT` from the missing
`idg_rest_mgmt.py`, the fatal message used when the final detail of a
completed action cannot be fetched; per spec §7 it names the action and the
target domain. -/
def ERROR_RETRIEVING_RESULT (state domain : String) : String :=
  "Unable to retrieve the result of state " ++ state ++ " in domain " ++ domain ++ "."

/-- Modelled from the spec: `IDGApi.ERROR_ACCEPTING_ACTION` from the missing
`idg_rest_mgmt.py`, the fatal message used when the action POST is rejected;
per spec §7 it names the action and the target domain. -/
def ERROR_ACCEPTING_ACTION (state domain : String) : String :=
  "The action for state " ++ state ++ " in domain " ++ domain ++ " was not accepted."

/-- Modelled from the spec: `IDGApi.ERROR_GET_DOMAIN_LIST` from the missing
`idg_rest_mgmt.py`, the fatal message used when the domain listing cannot be
read. -/
def ERROR_GET_DOMAIN_LIST : String := "Unable to retrieve the list of configured domains."

/-- Modelled from the spec: `IDGApi.ERROR_REACH_STATE` from the missing
`idg_rest_mgmt.py`, formatted with the requested state and domain. -/
def ERROR_REACH_STATE (state domain : String) : String :=
  "Unable to reach state " ++ state ++ " in domain " ++ domain ++ "."

/-- Modelled from the spec: `IDGApi.ERROR_NOT_DOMAIN` from the missing
`idg_rest_mgmt.py`, the suffix reported when the named domain does not exist
(spec §7, PreconditionUnmet). -/
def ERROR_NOT_DOMAIN : String := "The domain does not exist."

/-- Modelled from the spec: `IDGApi.status_text` from the missing
`idg_rest_mgmt.py`, the text of a synchronously returned action result
(spec §4.1, `SyncOK`); string results are reported verbatim. -/
def statusText (j : Json) : String :=
  match j with
  | .str s => s
  | v => jdump v

/-- Modelled from the spec: `str(ErrorHandler(raw))` from the missing
`idg_rest_mgmt.py`; per spec §4.4 and §7 the device's raw error text is
included in hard failure messages, string payloads verbatim. -/
def errorHandlerText (j : Json) : String :=
  match j with
  | .str s => s
  | v => jdump v

/-- Modelled from the spec: `IDGUtils.str_on_off` from the missing
`idg_common.py`, rendering a boolean module parameter as the device's
`"on"`/`"off"` strings used inside action payloads. -/
def str_on_off (b : Bool) : String := if b then "on" else "off"

/-- Modelled from the spec: the shared mutable result record `result`
initialised in the missing `idg_common.py` and merged into at the end of
every module; per spec §6 and §8 it starts with `changed` false and carries
no `failed` key (so `failed` stays unset on every non-failure path). -/
def initResult : List (String × Json) := [("changed", .bool false)]

/-- `__MODULE_FULLNAME` of `idg_domain_chkpoint.py` (module name from its
DOCUMENTATION plus version "1.0"). -/
def CHKPOINT_MODULE_FULLNAME : String := "idg_domain_chkpoint" ++ "-" ++ "1.0"

/-! The module invocation machinery: HTTP responses, outcomes, and the final
merge of the intermediate `tmp_result` into the shared `result` record. -/

/-- One HTTP response as returned by `IDGApi.api_call`: status code, reason
phrase, decoded JSON body. -/
structure HttpResp where
  code : Nat
  reason : String
  body : Json

/-- Final outcome of a module invocation: `module.exit_json(**result)` with
the merged record, or `module.fail_json(msg=...)`. -/
inductive Out where
  | exitJson (r : List (String × Json))
  | failJson (msg : String)

/-- Observable behaviour of one invocation: the poll locations handed to
`wait_for_action_end` (in order), and the final outcome. -/
structure Trace where
  polled : List Json
  out : Out

/-- Python `result[k] = v`: update the binding in place if the key exists,
else append it, preserving insertion order. -/
def setKey : List (String × Json) → String → Json → List (String × Json)
  | [], k, v => [(k, v)]
  | (k0, v0) :: rest, k, v =>
    if k0 = k then (k0, v) :: rest else (k0, v0) :: setKey rest k v

/-- The final update loop shared by all three modules
(`for k, v in tmp_result.items(): if v != None: result[k] = v`). -/
def merge (res : List (String × Json)) (tmp : List (String × Option Json)) :
    List (String × Json) :=
  tmp.foldl (fun r kv => match kv.2 with | none => r | some v => setKey r kv.1 v) res

/-- The `name` of every member of a domain list, in order; `none` models the
exception the comprehension `[d['name'] for d in ...]` raises on a member
without the key. -/
def namesOf : List Json → Option (List Json)
  | [] => some []
  | d :: rest =>
    match d.getField "name" with
    | some n => (namesOf rest).map (fun ns => n :: ns)
    | none => none

/-- Parsing of the domain listing shared by all three modules
(`chk_data['domain']` a dict yields the single name, a list yields every
member's `name` in order); `none` models the exception raised on any other
shape or missing key. -/
def configuredDomains (body : Json) : Option (List Json) :=
  match body.getField "domain" with
  | some (.obj f) => ((Json.obj f).getField "name").map (fun n => [n])
  | some (.arr l) => namesOf l
  | _ => none

/-- The `_links.location.href` poll location extracted from a 202 response
body; `none` models the `KeyError` raised when the link is missing. -/
def getHref (body : Json) : Option Json :=
  ((body.getField "_links").bind (fun v => v.getField "location")).bind
    (fun v => v.getField "href")

/-! The checkpoint module `idg_domain_chkpoint.py`. -/

/-- The fields of the checkpoint module's `tmp_result` that the branches can
set (`name` and `domain` are preset and never change). -/
structure ChkTmp where
  msg : Option Json := none
  changed : Option Json := none
  failed : Option Json := none

/-- The checkpoint module's `tmp_result` in its source order
(`idg_domain_chkpoint.py:194`). -/
def chkTmpList (chkpoint_name domain_name : String) (t : ChkTmp) :
    List (String × Option Json) :=
  [("name", some (.str chkpoint_name)), ("domain", some (.str domain_name)),
   ("msg", t.msg), ("changed", t.changed), ("failed", t.failed)]

/-- Responses the device gives over one checkpoint-module invocation: the
domain listing GET, the action POST, and the GET of the action's final
detail after polling. -/
structure ChkEnv where
  domainList : HttpResp
  action : HttpResp
  detail : HttpResp

/-- Handling of the create-checkpoint final detail
(`idg_domain_chkpoint.py:226-241`): an `error` status is classified by
substring-matching the already-exists phrase (idempotent no-op) against the
device's error text, anything else is a hard failure; a non-error status is
reported capitalized with `changed` true. -/
def chkpointDetailPresent (state domain_name chkpoint_name : String) (d : HttpResp) :
    Except String ChkTmp :=
  if d.code = 200 ∧ d.reason = "OK" then
    match d.body.getField "status" with
    | none => .error (uncontrolled "KeyError: 'status'")
    | some st =>
      if isStrEq st "error" then
        match d.body.getField "error" with
        | none => .error (uncontrolled "KeyError: 'error'")
        | some err =>
          match pyContains ("Configuration Checkpoint '" ++ chkpoint_name ++ "' already exists.") err with
          | none => .error (uncontrolled "TypeError: argument is not iterable")
          | some true => .ok { changed := some (.bool false), msg := some (.str IMMUTABLE_MESSAGE) }
          | some false =>
            .ok { changed := some (.bool false),
                  msg := some (.str (GENERAL_ERROR CHKPOINT_MODULE_FULLNAME state domain_name ++
                    errorHandlerText err)),
                  failed := some (.bool true) }
      else
        match st with
        | .str s => .ok { msg := some (.str (pyCapitalize s)), changed := some (.bool true) }
        | _ => .error (uncontrolled "AttributeError: capitalize")
  else .error (ERROR_RETRIEVING_RESULT state domain_name)

/-- Handling of the remove-checkpoint final detail
(`idg_domain_chkpoint.py:269-281`): an `error` status is a hard failure, a
non-error status is reported capitalized with `changed` true. -/
def chkpointDetailAbsent (state domain_name : String) (d : HttpResp) :
    Except String ChkTmp :=
  if d.code = 200 ∧ d.reason = "OK" then
    match d.body.getField "status" with
    | none => .error (uncontrolled "KeyError: 'status'")
    | some st =>
      if isStrEq st "error" then
        match d.body.getField "error" with
        | none => .error (uncontrolled "KeyError: 'error'")
        | some err =>
          .ok { msg := some (.str (GENERAL_ERROR CHKPOINT_MODULE_FULLNAME state domain_name ++
                  errorHandlerText err)),
                changed := some (.bool false),
                failed := some (.bool true) }
      else
        match st with
        | .str s => .ok { msg := some (.str (pyCapitalize s)), changed := some (.bool true) }
        | _ => .error (uncontrolled "AttributeError: capitalize")
  else .error (ERROR_RETRIEVING_RESULT state domain_name)

/-- The `state == 'present'` action dispatch
(`idg_domain_chkpoint.py:215-250`): 202 Accepted polls the advertised
location then handles the final detail, 200 OK is a synchronous completion,
anything else is a fatal rejection. -/
def chkpointPresent (state domain_name chkpoint_name : String) (action detail : HttpResp) :
    List Json × Except String ChkTmp :=
  if action.code = 202 ∧ action.reason = "Accepted" then
    match getHref action.body with
    | none => ([], .error (uncontrolled "KeyError: '_links'"))
    | some href => ([href], chkpointDetailPresent state domain_name chkpoint_name detail)
  else if action.code = 200 ∧ action.reason = "OK" then
    ([], match action.body.getField "SaveCheckpoint" with
         | none => .error (uncontrolled "KeyError: 'SaveCheckpoint'")
         | some v => .ok { msg := some (.str (statusText v)), changed := some (.bool true) })
  else ([], .error (ERROR_ACCEPTING_ACTION state domain_name))

/-- The `state == 'absent'` action dispatch
(`idg_domain_chkpoint.py:258-298`): as for `present`, plus the 400 Bad
Request arbitration that maps a missing checkpoint to the immutable no-op
message (leaving `changed` unset) and any other 400 to a hard failure. -/
def chkpointAbsent (state domain_name chkpoint_name : String) (action detail : HttpResp) :
    List Json × Except String ChkTmp :=
  if action.code = 202 ∧ action.reason = "Accepted" then
    match getHref action.body with
    | none => ([], .error (uncontrolled "KeyError: '_links'"))
    | some href => ([href], chkpointDetailAbsent state domain_name detail)
  else if action.code = 200 ∧ action.reason = "OK" then
    ([], match action.body.getField "RemoveCheckpoint" with
         | none => .error (uncontrolled "KeyError: 'RemoveCheckpoint'")
         | some v => .ok { msg := some (.str (statusText v)), changed := some (.bool true) })
  else if action.code = 400 ∧ action.reason = "Bad Request" then
    ([], match action.body.getField "error" with
         | none => .error (uncontrolled "KeyError: 'error'")
         | some err =>
           match pyContains ("Cannot find Configuration Checkpoint '" ++ chkpoint_name ++ "'.") err with
           | none => .error (uncontrolled "TypeError: argument is not iterable")
           | some true => .ok { msg := some (.str IMMUTABLE_MESSAGE) }
           | some false =>
             .ok { msg := some (.str (GENERAL_ERROR CHKPOINT_MODULE_FULLNAME state domain_name ++
                     errorHandlerText err)),
                   failed := some (.bool true) })
  else ([], .error (ERROR_ACCEPTING_ACTION state domain_name))

/-- The `state == 'restored'` action dispatch
(`idg_domain_chkpoint.py:306-338`); the final-detail handling is identical
to the `absent` one. -/
def chkpointRestored (state domain_name : String) (action detail : HttpResp) :
    List Json × Except String ChkTmp :=
  if action.code = 202 ∧ action.reason = "Accepted" then
    match getHref action.body with
    | none => ([], .error (uncontrolled "KeyError: '_links'"))
    | some href => ([href], chkpointDetailAbsent state domain_name detail)
  else if action.code = 200 ∧ action.reason = "OK" then
    ([], match action.body.getField "RollbackCheckpoint" with
         | none => .error (uncontrolled "KeyError: 'RollbackCheckpoint'")
         | some v => .ok { msg := some (.str (statusText v)), changed := some (.bool true) })
  else ([], .error (ERROR_ACCEPTING_ACTION state domain_name))

/-- Finish of a checkpoint-module invocation: a raised/failed branch is a
`fail_json`, a completed branch merges `tmp_result` into the shared record
and exits. -/
def chkFinish (chkpoint_name domain_name : String) (r : Except String ChkTmp) : Out :=
  match r with
  | .error m => .failJson m
  | .ok t => .exitJson (merge initResult (chkTmpList chkpoint_name domain_name t))

/-- `main` of `idg_domain_chkpoint.py` as a function of the device's
responses: read the domain listing, check the domain exists, dispatch on the
requested state, then merge `tmp_result` into the shared result record. -/
def chkpointMain (state domain_name chkpoint_name : String) (env : ChkEnv) : Trace :=
  let chk := env.domainList
  if chk.code = 200 ∧ chk.reason = "OK" then
    match configuredDomains chk.body with
    | none => ⟨[], .failJson (uncontrolled "KeyError: 'domain'")⟩
    | some doms =>
      if doms.any (fun j => isStrEq j domain_name) then
        let pr :=
          if state = "present" then
            chkpointPresent state domain_name chkpoint_name env.action env.detail
          else if state = "absent" then
            chkpointAbsent state domain_name chkpoint_name env.action env.detail
          else if state = "restored" then
            chkpointRestored state domain_name env.action env.detail
          else ([], .ok {})
        ⟨pr.1, chkFinish chkpoint_name domain_name pr.2⟩
      else
        ⟨[], .failJson (ERROR_REACH_STATE state domain_name ++ " " ++ ERROR_NOT_DOMAIN)⟩
  else ⟨[], .failJson ERROR_GET_DOMAIN_LIST⟩

/-! The domain-configuration module `idg_domain_config.py`. -/

/-- The module parameters of `idg_domain_config.py` (beyond state, domain
and the connection), with their declared defaults. -/
structure CfgParams where
  user_summary : Option String := none
  all_files : Bool := false
  persisted : Bool := false
  internal_files : Bool := true
  input_file : Option String := none
  output_path : Option String := none
  overwrite_files : Bool := false
  overwrite_objects : Bool := false
  dry_run : Bool := false
  rewrite_local_ip : Bool := false
  deployment_policy : Option String := none
  deployment_policy_params : Option String := none
  import_format : String := "ZIP"

/-- An optional string parameter as it lands in a JSON payload
(`None` serialises to `null`). -/
def optStrJson : Option String → Json
  | none => .null
  | some s => .str s

/-- The `Import` action payload (`idg_domain_config.py:499-520`), with the
deployment-policy fields present only when a policy was given. -/
def importActionMsg (p : CfgParams) : Json :=
  match p.deployment_policy with
  | some dp =>
    .obj [("Import", .obj [("Format", .str p.import_format),
                           ("InputFile", optStrJson p.input_file),
                           ("OverwriteFiles", .str (str_on_off p.overwrite_files)),
                           ("OverwriteObjects", .str (str_on_off p.overwrite_objects)),
                           ("DryRun", .str (str_on_off p.dry_run)),
                           ("RewriteLocalIP", .str (str_on_off p.rewrite_local_ip)),
                           ("DeploymentPolicy", .str dp),
                           ("DeploymentPolicyParams", optStrJson p.deployment_policy_params)])]
  | none =>
    .obj [("Import", .obj [("Format", .str p.import_format),
                           ("InputFile", optStrJson p.input_file),
                           ("OverwriteFiles", .str (str_on_off p.overwrite_files)),
                           ("OverwriteObjects", .str (str_on_off p.overwrite_objects)),
                           ("DryRun", .str (str_on_off p.dry_run)),
                           ("RewriteLocalIP", .str (str_on_off p.rewrite_local_ip))])]

/-- The fields of the config module's `tmp_result` that the branches can set
(`name` is preset; `results` is added only by a successful import). -/
structure CfgTmp where
  msg : Option Json := none
  file : Option Json := none
  changed : Option Json := none
  failed : Option Json := none
  results : Option Json := none

/-- The config module's `tmp_result` in its source order
(`idg_domain_config.py:337-338`, `results` appended last on success). -/
def cfgTmpList (domain_name : String) (t : CfgTmp) : List (String × Option Json) :=
  [("name", some (.str domain_name)), ("msg", t.msg), ("file", t.file),
   ("changed", t.changed), ("failed", t.failed), ("results", t.results)]

/-- Responses the device gives over one config-module invocation: the domain
listing GET, the domain-status GET (used by `state == 'saved'`), the action
POST/PUT, the GET of the final detail, and the terminal label that
`wait_for_action_end` returned. -/
structure CfgEnv where
  domainList : HttpResp
  domainStatus : HttpResp
  action : HttpResp
  detail : HttpResp
  actionResult : String

/-- The `state == 'exported'` dispatch (`idg_domain_config.py:371-402`):
after a 202 and polling, a 200 detail yields the export file with `changed`
true and no inspection beyond `result.file`. -/
def cfgExport (state domain_name : String) (action detail : HttpResp)
    (actionResult : String) : List Json × Except String CfgTmp :=
  if action.code = 202 ∧ action.reason = "Accepted" then
    match getHref action.body with
    | none => ([], .error (uncontrolled "KeyError: '_links'"))
    | some href =>
      ([href],
        if detail.code = 200 ∧ detail.reason = "OK" then
          match (detail.body.getField "result").bind (fun v => v.getField "file") with
          | none => .error (uncontrolled "KeyError: 'result'")
          | some f =>
            .ok { file := some f, msg := some (.str actionResult), changed := some (.bool true) }
        else .error (ERROR_RETRIEVING_RESULT state domain_name))
  else if action.code = 200 ∧ action.reason = "OK" then
    ([], match action.body.getField "Export" with
         | none => .error (uncontrolled "KeyError: 'Export'")
         | some v => .ok { msg := some (.str (statusText v)), changed := some (.bool true) })
  else ([], .error (ERROR_ACCEPTING_ACTION state domain_name))

/-- The `state == 'reseted'` dispatch (`idg_domain_config.py:410-441`): a
200 detail is reported capitalized with `changed` true, with no error-status
inspection at all. -/
def cfgReset (state domain_name : String) (action detail : HttpResp) :
    List Json × Except String CfgTmp :=
  if action.code = 202 ∧ action.reason = "Accepted" then
    match getHref action.body with
    | none => ([], .error (uncontrolled "KeyError: '_links'"))
    | some href =>
      ([href],
        if detail.code = 200 ∧ detail.reason = "OK" then
          match detail.body.getField "status" with
          | some (.str s) => .ok { msg := some (.str (pyCapitalize s)), changed := some (.bool true) }
          | some _ => .error (uncontrolled "AttributeError: capitalize")
          | none => .error (uncontrolled "KeyError: 'status'")
        else .error (ERROR_RETRIEVING_RESULT state domain_name))
  else if action.code = 200 ∧ action.reason = "OK" then
    ([], match action.body.getField "ResetThisDomain" with
         | none => .error (uncontrolled "KeyError: 'ResetThisDomain'")
         | some v => .ok { msg := some (.str (statusText v)), changed := some (.bool true) })
  else ([], .error (ERROR_ACCEPTING_ACTION state domain_name))

/-- Each member of a `DomainStatus` list paired with its `Domain` value;
`none` models the exception raised on a member without the key. -/
def domainPairs : List Json → Option (List (Json × Json))
  | [] => some []
  | d :: rest =>
    match d.getField "Domain" with
    | some dm => (domainPairs rest).map (fun ps => (dm, d) :: ps)
    | none => none

/-- The `SaveNeeded` value of each listed member; `none` models the
exception raised on a member without the key. -/
def saveNeededList : List (Json × Json) → Option (List Json)
  | [] => some []
  | p :: rest =>
    match p.2.getField "SaveNeeded" with
    | some v => (saveNeededList rest).map (fun vs => v :: vs)
    | none => none

/-- The `SaveNeeded` flag for the target domain, read from the
`DomainStatus` body (`idg_domain_config.py:451-455`): a dict yields its own
flag, a list is filtered on `Domain` and the first match's flag is taken;
`none` models the exceptions of the comprehension (missing keys, non-dict
members, no match). -/
def saveNeededOf (body : Json) (domain_name : String) : Option Json :=
  match body.getField "DomainStatus" with
  | some (.obj f) => (Json.obj f).getField "SaveNeeded"
  | some (.arr l) =>
    (domainPairs l).bind (fun pairs =>
      (saveNeededList (pairs.filter (fun pr => isStrEq pr.1 domain_name))).bind List.head?)
  | _ => none

/-- The `state == 'saved'` branch (`idg_domain_config.py:443-496`): consult
the domain status; when a save is needed dispatch the `SaveConfig` action
(202 polls then reports the poller's label with `changed` true; the
rejection message here is the retrieving-result one), when not needed report
the immutable message; when the status fetch is not a 200 OK, fall through
with `tmp_result` untouched. -/
def cfgSaved (state domain_name : String) (statusResp action detail : HttpResp)
    (actionResult : String) : List Json × Except String CfgTmp :=
  if statusResp.code = 200 ∧ statusResp.reason = "OK" then
    match saveNeededOf statusResp.body domain_name with
    | none => ([], .error (uncontrolled "exception while reading DomainStatus"))
    | some needed =>
      if ¬ isStrEq needed "off" then
        if action.code = 202 ∧ action.reason = "Accepted" then
          match getHref action.body with
          | none => ([], .error (uncontrolled "KeyError: '_links'"))
          | some href =>
            ([href],
              if detail.code = 200 ∧ detail.reason = "OK" then
                .ok { msg := some (.str actionResult), changed := some (.bool true) }
              else .error (ERROR_RETRIEVING_RESULT state domain_name))
        else if action.code = 200 ∧ action.reason = "OK" then
          ([], match action.body.getField "SaveConfig" with
               | none => .error (uncontrolled "KeyError: 'SaveConfig'")
               | some v => .ok { msg := some (.str (statusText v)), changed := some (.bool true) })
        else ([], .error (ERROR_RETRIEVING_RESULT state domain_name))
      else ([], .ok { msg := some (.str IMMUTABLE_MESSAGE) })
  else ([], .ok {})

/-- Handling of the import final detail (`idg_domain_config.py:538-634`):
a `detected-errors` indicator other than the string `"false"` is a
failed import (`changed` false, `failed` true); otherwise the nested collections
are normalized into the `results` list and the body's status is reported
capitalized with `changed` true. -/
def cfgImportDetail (state domain_name : String) (d : HttpResp) :
    Except String CfgTmp :=
  if d.code = 200 ∧ d.reason = "OK" then
    match ((d.body.getField "result").bind (fun v => v.getField "Import")).bind
        (fun v => v.getField "import-results") with
    | none => .error (uncontrolled "KeyError: 'result'")
    | some ir =>
      match ir.getField "detected-errors" with
      | none => .error (uncontrolled "KeyError: 'detected-errors'")
      | some de =>
        if ¬ isStrEq de "false" then
          match de.getField "error" with
          | some (.str e) =>
            .ok { msg := some (.str ("Import failed with error code: \"" ++ e ++ "\"")),
                  changed := some (.bool false), failed := some (.bool true) }
          | _ => .error (uncontrolled "TypeError: concatenation")
        else
          match ir.getField "export-details" with
          | none => .error (uncontrolled "KeyError: 'export-details'")
          | some ed =>
            let sections : List Json :=
              [Json.obj [("export-details", ed)]] ++
              (norm_section "exec-script-results" "cfg-result" ir).toList ++
              (fileCopySection ir).toList ++
              (importedDebugSection ir).toList ++
              (norm_section "imported-files" "file" ir).toList ++
              (norm_section "imported-objects" "object" ir).toList
            match d.body.getField "status" with
            | some (.str s) =>
              .ok { results := some (.arr sections),
                    msg := some (.str (pyCapitalize s)), changed := some (.bool true) }
            | some _ => .error (uncontrolled "AttributeError: capitalize")
            | none => .error (uncontrolled "KeyError: 'status'")
  else .error (ERROR_RETRIEVING_RESULT state domain_name)

/-- The `state == 'imported'` dispatch (`idg_domain_config.py:526-645`); the
rejection message carries the dumped import payload. -/
def cfgImport (state domain_name : String) (p : CfgParams) (action detail : HttpResp) :
    List Json × Except String CfgTmp :=
  if action.code = 202 ∧ action.reason = "Accepted" then
    match getHref action.body with
    | none => ([], .error (uncontrolled "KeyError: '_links'"))
    | some href => ([href], cfgImportDetail state domain_name detail)
  else if action.code = 200 ∧ action.reason = "OK" then
    ([], match action.body.getField "Import" with
         | none => .error (uncontrolled "KeyError: 'Import'")
         | some v => .ok { msg := some (.str (statusText v)), changed := some (.bool true) })
  else
    ([], .error (ERROR_ACCEPTING_ACTION state domain_name ++ jdump (importActionMsg p)))

/-- The `state == 'stored'` branch (`idg_domain_config.py:647-668`): build
the filestore PUT from the output path (the name after the last slash; no
slash raises), then report success on a 200 OK or any 201, else fail with
the response code and dumped body. -/
def cfgStored (state domain_name : String) (p : CfgParams) (action : HttpResp) :
    List Json × Except String CfgTmp :=
  match p.output_path with
  | none => ([], .error (uncontrolled "AttributeError: rsplit on NoneType"))
  | some fn =>
    match (fn.splitOn "/").reverse with
    | [] => ([], .error (uncontrolled "IndexError"))
    | [_] => ([], .error (uncontrolled "IndexError: list index out of range"))
    | base :: _ :: _ =>
      let _storeMsg : Json := .obj [("file", .obj [("name", .str base),
                                                   ("content", optStrJson p.input_file)])]
      let _encoded : String := fn.replace " " "%20"
      if (action.reason = "OK" ∧ action.code = 200) ∨ action.code = 201 then
        ([], match action.body.getField "result" with
             | none => .error (uncontrolled "KeyError: 'result'")
             | some v => .ok { msg := some (.str (statusText v)), changed := some (.bool true) })
      else
        ([], .error (ERROR_REACH_STATE state domain_name ++ " HTTP response code: " ++
               toString action.code ++ " Response body: " ++ jdump action.body))

/-- Finish of a config-module invocation: a raised/failed branch is a
`fail_json`, a completed branch merges `tmp_result` into the shared record
and exits. -/
def cfgFinish (domain_name : String) (r : Except String CfgTmp) : Out :=
  match r with
  | .error m => .failJson m
  | .ok t => .exitJson (merge initResult (cfgTmpList domain_name t))

/-- `main` of `idg_domain_config.py` as a function of the device's
responses: read the domain listing, check the domain exists, dispatch on the
requested state, then merge `tmp_result` into the shared result record. -/
def configMain (state : String) (p : CfgParams) (domain_name : String) (env : CfgEnv) :
    Trace :=
  let chk := env.domainList
  if chk.code = 200 ∧ chk.reason = "OK" then
    match configuredDomains chk.body with
    | none => ⟨[], .failJson (uncontrolled "KeyError: 'domain'")⟩
    | some doms =>
      if doms.any (fun j => isStrEq j domain_name) then
        let pr :=
          if state = "exported" then
            cfgExport state domain_name env.action env.detail env.actionResult
          else if state = "reseted" then
            cfgReset state domain_name env.action env.detail
          else if state = "saved" then
            cfgSaved state domain_name env.domainStatus env.action env.detail env.actionResult
          else if state = "imported" then
            cfgImport state domain_name p env.action env.detail
          else if state = "stored" then
            cfgStored state domain_name p env.action
          else ([], .ok {})
        ⟨pr.1, cfgFinish domain_name pr.2⟩
      else
        ⟨[], .failJson (ERROR_REACH_STATE state domain_name ++ " " ++ ERROR_NOT_DOMAIN)⟩
  else ⟨[], .failJson ERROR_GET_DOMAIN_LIST⟩

/-! The discovery module `idg_domain_discovery.py`. -/

/-- `main` of `idg_domain_discovery.py` as a function of the domain-list
response (`idg_domain_discovery.py:132-157`): a 200 OK yields the configured
domain names as `msg`, anything else leaves `tmp_result` untouched and still
exits successfully. -/
def discoveryMain (domainList : HttpResp) : Trace :=
  if domainList.code = 200 ∧ domainList.reason = "OK" then
    match configuredDomains domainList.body with
    | none => ⟨[], .failJson (uncontrolled "KeyError: 'domain'")⟩
    | some doms => ⟨[], .exitJson (merge initResult [("msg", some (.arr doms))])⟩
  else ⟨[], .exitJson (merge initResult [("msg", none)])⟩

/-! Properties of the result-record update `result[k] = v` and of the final
merge loop. -/

lemma assocFind_setKey_self (r : List (String × Json)) (k : String) (v : Json) :
    assocFind (setKey r k v) k = some v := by
  induction r with
  | nil => simp [setKey, assocFind]
  | cons p rest ih =>
    obtain ⟨k0, v0⟩ := p
    by_cases h : k0 = k
    · simp [setKey, h, assocFind]
    · simp [setKey, h, assocFind, ih]

lemma assocFind_setKey_ne (r : List (String × Json)) (k k' : String) (v : Json)
    (h : k ≠ k') : assocFind (setKey r k v) k' = assocFind r k' := by
  induction r with
  | nil => simp [setKey, assocFind, h]
  | cons p rest ih =>
    obtain ⟨k0, v0⟩ := p
    by_cases h0 : k0 = k
    · subst h0
      simp [setKey, assocFind, h]
    · simp [setKey, h0, assocFind, ih]

lemma merge_cons (res : List (String × Json)) (kv : String × Option Json)
    (rest : List (String × Option Json)) :
    merge res (kv :: rest) =
      merge (match kv.2 with | none => res | some v => setKey res kv.1 v) rest := rfl

lemma merge_skip (tmp : List (String × Option Json)) :
    ∀ (res : List (String × Json)) (k : String), (∀ v, (k, some v) ∉ tmp) →
      assocFind (merge res tmp) k = assocFind res k := by
  induction tmp with
  | nil => intro res k _; rfl
  | cons kv rest ih =>
    intro res k h
    obtain ⟨k0, ov⟩ := kv
    match ov with
    | none =>
      rw [merge_cons]
      exact ih res k (fun v hv => h v (List.mem_cons_of_mem _ hv))
    | some v0 =>
      rw [merge_cons]
      have hk : k0 ≠ k := by
        intro hkk
        exact h v0 (by simp [hkk])
      rw [ih _ k (fun v hv => h v (List.mem_cons_of_mem _ hv))]
      exact assocFind_setKey_ne res k0 k v0 hk

lemma merge_mem (tmp : List (String × Option Json)) :
    ∀ (res : List (String × Json)) (k : String) (v : Json),
      (tmp.map Prod.fst).Nodup → (k, some v) ∈ tmp →
      assocFind (merge res tmp) k = some v := by
  induction tmp with
  | nil => intro res k v _ hm; cases hm
  | cons kv rest ih =>
    intro res k v hnd hm
    obtain ⟨k0, ov⟩ := kv
    rw [List.map_cons, List.nodup_cons] at hnd
    rcases List.mem_cons.mp hm with heq | htail
    · cases heq
      rw [merge_cons]
      have hrest : ∀ v', (k, some v') ∉ rest := by
        intro v' hv'
        exact hnd.1 (by simpa using List.mem_map_of_mem Prod.fst hv')
      rw [merge_skip rest _ k hrest]
      exact assocFind_setKey_self res k v
    · rw [merge_cons]
      exact ih _ k v hnd.2 htail

/-- C10: the final update loop copies into the shared result record exactly
those `tmp_result` fields whose value is not `None`: a key with no non-None
binding in `tmp_result` keeps its value from the pre-existing record, and a
key bound to a non-None value (keys are unique in a dict) ends up with
exactly that value. -/
theorem c10_merge_copies_only_non_none (res : List (String × Json))
    (tmp : List (String × Option Json)) (k : String) :
    ((∀ v, (k, some v) ∉ tmp) → assocFind (merge res tmp) k = assocFind res k) ∧
    ((tmp.map Prod.fst).Nodup → ∀ v, (k, some v) ∈ tmp →
      assocFind (merge res tmp) k = some v) :=
  ⟨merge_skip tmp res k, fun hnd v hm => merge_mem tmp res k v hnd hm⟩

/-- Witness for C10 at a concrete record and `tmp_result`: the None-valued
`failed` field is not written (the pre-existing value is kept), while the
non-None `msg` field is. -/
theorem c10_merge_copies_only_non_none_witness :
    assocFind (merge initResult [("msg", some (.str "done")), ("failed", none)]) "failed" =
      assocFind initResult "failed" ∧
    assocFind (merge initResult [("msg", some (.str "done")), ("failed", none)]) "msg" =
      some (.str "done") :=
  ⟨(c10_merge_copies_only_non_none initResult _ "failed").1 (by intro v; simp),
   (c10_merge_copies_only_non_none initResult _ "msg").2 (by simp) _ (by simp)⟩

/-! Properties of `get_status_summary`. -/

lemma scalarEq_true_iff (a b : Json) :
    scalarEq a b = true ↔ (pyHashable a = true ∧ a = b) := by
  cases a <;> cases b <;> simp [scalarEq, pyHashable]

lemma sumVals_bump (s : List (Json × Nat)) (k : Json) :
    sumVals (bump s k) = sumVals s + 1 := by
  induction s with
  | nil => simp [bump, sumVals]
  | cons p rest ih =>
    obtain ⟨k0, n⟩ := p
    by_cases h : scalarEq k0 k = true
    · simp [bump, h, sumVals]
      omega
    · simp [bump, h, sumVals, ih]
      omega

lemma cntOf_bump (s : List (Json × Nat)) (st k : Json) (hst : pyHashable st = true) :
    cntOf (bump s st) k = cntOf s k + (if scalarEq st k then 1 else 0) := by
  induction s with
  | nil => simp [bump, cntOf]
  | cons p rest ih =>
    obtain ⟨k0, n⟩ := p
    by_cases h : scalarEq k0 st = true
    · have hk0 : k0 = st := ((scalarEq_true_iff k0 st).mp h).2
      subst hk0
      by_cases hk : scalarEq k0 k = true
      · simp [bump, h, cntOf, hk]
      · simp [bump, h, cntOf, hk]
    · by_cases hk : scalarEq k0 k = true
      · have hh : pyHashable k0 = true := ((scalarEq_true_iff k0 k).mp hk).1
        have hk0 : k0 = k := ((scalarEq_true_iff k0 k).mp hk).2
        subst hk0
        have hsk : scalarEq st k0 = false := by
          cases hx : scalarEq st k0
          · rfl
          · exfalso
            have hst : st = k0 := ((scalarEq_true_iff st k0).mp hx).2
            subst hst
            exact h ((scalarEq_true_iff st st).mpr ⟨hh, rfl⟩)
        simp [bump, h, cntOf, hk, hsk]
      · simp [bump, h, cntOf, hk, ih]

lemma get_status_summary_go_spec (l : List Json) :
    ∀ s : List (Json × Nat),
      (∀ e ∈ l, ∃ lbl : String, e.getField "status" = some (.str lbl)) →
      ∃ out, get_status_summary_go s l = some out ∧
        (∀ k : Json, cntOf out k = cntOf s k +
          l.countP (fun e => match e.getField "status" with
                             | some st => scalarEq st k
                             | none => false)) ∧
        sumVals out = sumVals s + l.length := by
  induction l with
  | nil =>
    intro s _
    exact ⟨s, rfl, by simp [List.countP_nil], by simp⟩
  | cons i rest ih =>
    intro s h
    obtain ⟨lbl, hlbl⟩ := h i (List.mem_cons_self i rest)
    obtain ⟨out, hout, hcnt, hsum⟩ :=
      ih (bump s (.str lbl)) (fun e he => h e (List.mem_cons_of_mem _ he))
    refine ⟨out, ?_, ?_, ?_⟩
    · simp [get_status_summary_go, hlbl, pyHashable, hout]
    · intro k
      rw [hcnt k, cntOf_bump s (.str lbl) k (by simp [pyHashable]), List.countP_cons]
      simp only [hlbl]
      omega
    · rw [hsum, sumVals_bump]
      simp [List.length_cons]
      omega

/-- C3: for a list of entries each carrying a (string-labelled) `status`
attribute, `get_status_summary` succeeds and maps each status label to its
number of occurrences in the list, and the counts sum to the length of the
list — which is exactly the `total` the import branch reports alongside the
summary. -/
theorem c3_status_summary_counts (l : List Json)
    (h : ∀ e ∈ l, ∃ lbl : String, e.getField "status" = some (.str lbl)) :
    ∃ out, get_status_summary l = some out ∧
      (∀ k : Json, cntOf out k =
        l.countP (fun e => match e.getField "status" with
                           | some st => scalarEq st k
                           | none => false)) ∧
      sumVals out = l.length := by
  obtain ⟨out, hout, hcnt, hsum⟩ := get_status_summary_go_spec l [] h
  exact ⟨out, hout, fun k => by simpa [cntOf] using hcnt k, by simpa [sumVals] using hsum⟩

/-- Witness for C3 on a concrete entry list with two distinct status
labels. -/
theorem c3_status_summary_counts_witness :
    ∃ out, get_status_summary
        [.obj [("status", .str "SUCCESS")], .obj [("status", .str "FAILURE")],
         .obj [("status", .str "SUCCESS")]] = some out ∧
      (∀ k : Json, cntOf out k =
        List.countP (fun e => match Json.getField e "status" with
                              | some st => scalarEq st k
                              | none => false)
          [.obj [("status", .str "SUCCESS")], .obj [("status", .str "FAILURE")],
           .obj [("status", .str "SUCCESS")]]) ∧
      sumVals out = 3 :=
  c3_status_summary_counts _ (by
    intro e he
    simp only [List.mem_cons, List.not_mem_nil, or_false] at he
    rcases he with rfl | rfl | rfl
    · exact ⟨"SUCCESS", rfl⟩
    · exact ⟨"FAILURE", rfl⟩
    · exact ⟨"SUCCESS", rfl⟩)

/-! Properties of the single-vs-list normalization of nested import-result
collections. -/

/-- C1: for every nested import-result collection, normalized uniformly by
`norm_nested` (instantiated in `cfgImportDetail` at
`exec-script-results`/`cfg-result`, `imported-files`/`file` and
`imported-objects`/`object`): a single object as the raw inner field
produces one entry containing that object unchanged, and a list produces
the entry with `total` (the list length), the `status` summary, and a
`detail` equal to that list, order preserved. -/
theorem c1_nested_collection_normalization (ok ik : String) (container : Json) :
    (∀ fields, container.getField ik = some (.obj fields) →
      norm_nested ok ik container = .obj [(ok, .obj fields)]) ∧
    (∀ l out, container.getField ik = some (.arr l) → get_status_summary l = some out →
      norm_nested ok ik container =
        .obj [(ok, .obj [("summary", .obj [("total", .num l.length),
                                           ("status", statusObjOf out)]),
                         ("detail", .arr l)])]) := by
  constructor
  · intro fields h
    simp [norm_nested, h]
  · intro l out h hsum
    simp [norm_nested, h, hsum]

/-- Witness for C1: a single-object `file` field is kept unchanged as one
entry; a one-element `object` list gets the summary plus the list itself as
`detail`. -/
theorem c1_nested_collection_normalization_witness :
    norm_nested "imported-files" "file" (.obj [("file", .obj [("name", .str "a.xml")])]) =
      .obj [("imported-files", .obj [("name", .str "a.xml")])] ∧
    norm_nested "imported-objects" "object"
        (.obj [("object", .arr [.obj [("status", .str "SUCCESS")]])]) =
      .obj [("imported-objects",
        .obj [("summary", .obj [("total", .num (List.length [Json.obj [("status", .str "SUCCESS")]])),
                                ("status", statusObjOf [(.str "SUCCESS", 1)])]),
              ("detail", .arr [.obj [("status", .str "SUCCESS")]])])] :=
  ⟨(c1_nested_collection_normalization "imported-files" "file" _).1 _ rfl,
   (c1_nested_collection_normalization "imported-objects" "object" _).2 _ _ rfl rfl⟩

/-! The discovery module's behaviour. -/

lemma namesOf_spec (l : List Json) (h : ∀ d ∈ l, ∃ nm, Json.getField d "name" = some nm) :
    ∃ names, namesOf l = some names ∧
      List.Forall₂ (fun d nm => Json.getField d "name" = some nm) l names := by
  induction l with
  | nil => exact ⟨[], rfl, .nil⟩
  | cons d rest ih =>
    obtain ⟨nm, hnm⟩ := h d (List.mem_cons_self d rest)
    obtain ⟨names, hns, hf⟩ := ih (fun e he => h e (List.mem_cons_of_mem _ he))
    exact ⟨nm :: names, by simp [namesOf, hnm, hns], List.Forall₂.cons hnm hf⟩

/-- C9: the discovery module exits successfully with `msg` left unset on any
non-200 domain-list response; on a 200 OK it reports the configured domain
names as `msg` — a dict body as the one-element list of its name, a list
body as every member's name in order. -/
theorem c9_discovery_msg_only_on_200 (resp : HttpResp) :
    (¬(resp.code = 200 ∧ resp.reason = "OK") →
      discoveryMain resp = ⟨[], .exitJson initResult⟩ ∧
      assocFind initResult "msg" = none) ∧
    (resp.code = 200 → resp.reason = "OK" →
      (∀ f n, resp.body.getField "domain" = some (.obj f) → assocFind f "name" = some n →
        discoveryMain resp = ⟨[], .exitJson (merge initResult [("msg", some (.arr [n]))])⟩ ∧
        assocFind (merge initResult [("msg", some (.arr [n]))]) "msg" = some (.arr [n])) ∧
      (∀ l, resp.body.getField "domain" = some (.arr l) →
        (∀ d ∈ l, ∃ nm, Json.getField d "name" = some nm) →
        ∃ names, List.Forall₂ (fun d nm => Json.getField d "name" = some nm) l names ∧
          discoveryMain resp = ⟨[], .exitJson (merge initResult [("msg", some (.arr names))])⟩ ∧
          assocFind (merge initResult [("msg", some (.arr names))]) "msg" =
            some (.arr names))) := by
  obtain ⟨code, reason, body⟩ := resp
  refine ⟨?_, ?_⟩
  · intro h
    refine ⟨?_, rfl⟩
    simp only [discoveryMain]
    rw [if_neg h]
    rfl
  · intro hcode hreason
    simp only at hcode hreason
    subst hcode; subst hreason
    refine ⟨?_, ?_⟩
    · intro f n hdom hname
      have hdom' : Json.getField body "domain" = some (.obj f) := hdom
      have hcfg : configuredDomains body = some [n] := by
        unfold configuredDomains
        rw [hdom']
        simp [Json.getField, hname]
      refine ⟨?_, by simp [merge, initResult, setKey, assocFind]⟩
      simp [discoveryMain, hcfg]
    · intro l hdom hall
      obtain ⟨names, hns, hf⟩ := namesOf_spec l hall
      have hdom' : Json.getField body "domain" = some (.arr l) := hdom
      have hcfg : configuredDomains body = some names := by
        unfold configuredDomains
        rw [hdom']
        simp [hns]
      refine ⟨names, hf, ?_, by simp [merge, initResult, setKey, assocFind]⟩
      simp [discoveryMain, hcfg]

/-- Witness for C9: a 500 response exits successfully with no `msg`; a
200 OK carrying a two-domain list reports both names in order. -/
theorem c9_discovery_msg_only_on_200_witness :
    discoveryMain ⟨500, "Error", .null⟩ = ⟨[], .exitJson initResult⟩ ∧
    (∃ names,
      List.Forall₂ (fun d nm => Json.getField d "name" = some nm)
        [Json.obj [("name", .str "default")], Json.obj [("name", .str "dev")]] names ∧
      discoveryMain ⟨200, "OK",
          .obj [("domain", .arr [.obj [("name", .str "default")],
                                 .obj [("name", .str "dev")]])]⟩ =
        ⟨[], .exitJson (merge initResult [("msg", some (.arr names))])⟩ ∧
      assocFind (merge initResult [("msg", some (.arr names))]) "msg" = some (.arr names)) :=
  ⟨((c9_discovery_msg_only_on_200 ⟨500, "Error", .null⟩).1 (by simp)).1,
   ((c9_discovery_msg_only_on_200 _).2 rfl rfl).2 _ rfl (by
      intro d hd
      simp only [List.mem_cons, List.not_mem_nil, or_false] at hd
      rcases hd with rfl | rfl
      · exact ⟨.str "default", rfl⟩
      · exact ⟨.str "dev", rfl⟩)⟩

/-! The saved-state branch when the domain-status fetch fails. -/

/-- C8: with state `saved`, a domain-status response other than 200 OK makes
the config module exit successfully having set only `name`: no save action
is dispatched (nothing is polled and the outcome ignores the action/detail
responses), the invocation does not fail, and `msg`/`failed` are left unset
(`changed` keeps its initial value from the shared record). -/
theorem c8_saved_silent_on_status_failure (p : CfgParams) (dn : String) (env : CfgEnv)
    (doms : List Json)
    (h1 : env.domainList.code = 200) (h2 : env.domainList.reason = "OK")
    (h3 : configuredDomains env.domainList.body = some doms)
    (h4 : doms.any (fun j => isStrEq j dn) = true)
    (h5 : ¬(env.domainStatus.code = 200 ∧ env.domainStatus.reason = "OK")) :
    configMain "saved" p dn env = ⟨[], .exitJson (setKey initResult "name" (.str dn))⟩ ∧
    assocFind (setKey initResult "name" (.str dn)) "msg" = none ∧
    assocFind (setKey initResult "name" (.str dn)) "failed" = none ∧
    assocFind (setKey initResult "name" (.str dn)) "changed" = assocFind initResult "changed" ∧
    (∀ env2 : CfgEnv, env2.domainList = env.domainList →
      env2.domainStatus = env.domainStatus →
      configMain "saved" p dn env2 = configMain "saved" p dn env) := by
  obtain ⟨dl, ds, act, det, ar⟩ := env
  obtain ⟨dlc, dlr, dlb⟩ := dl
  simp only at h1 h2 h3 h5
  subst h1; subst h2
  have hmain : configMain "saved" p dn ⟨⟨200, "OK", dlb⟩, ds, act, det, ar⟩ =
      ⟨[], .exitJson (setKey initResult "name" (.str dn))⟩ := by
    simp [configMain, cfgSaved, cfgFinish, h3, h4, h5, merge, cfgTmpList, initResult, setKey]
  refine ⟨hmain, by simp [initResult, setKey, assocFind],
    by simp [initResult, setKey, assocFind], by simp [initResult, setKey, assocFind], ?_⟩
  intro env2 hdl hds
  obtain ⟨dl2, ds2, act2, det2, ar2⟩ := env2
  simp only at hdl hds
  subst hdl; subst hds
  rw [hmain]
  simp [configMain, cfgSaved, cfgFinish, h3, h4, h5, merge, cfgTmpList, initResult, setKey]

/-- Witness for C8 at a concrete environment whose domain-status GET answers
503. -/
theorem c8_saved_silent_on_status_failure_witness :
    configMain "saved" {} "default"
        ⟨⟨200, "OK", .obj [("domain", .obj [("name", .str "default")])]⟩,
         ⟨503, "Service Unavailable", .null⟩,
         ⟨200, "OK", .null⟩, ⟨200, "OK", .null⟩, "completed"⟩ =
      ⟨[], .exitJson (setKey initResult "name" (.str "default"))⟩ ∧
    assocFind (setKey initResult "name" (.str "default")) "msg" = none ∧
    assocFind (setKey initResult "name" (.str "default")) "failed" = none := by
  have h := c8_saved_silent_on_status_failure {} "default"
    ⟨⟨200, "OK", .obj [("domain", .obj [("name", .str "default")])]⟩,
     ⟨503, "Service Unavailable", .null⟩,
     ⟨200, "OK", .null⟩, ⟨200, "OK", .null⟩, "completed"⟩
    [.str "default"] rfl rfl rfl (by simp [isStrEq]) (by simp)
  exact ⟨h.1, h.2.1, h.2.2.1⟩

/-! Substring containment, used both for Python's `in` on strings and to
state that failure messages include their required parts. -/

/-- `p` occurs contiguously inside `l`. -/
def isSub (p l : List Char) : Prop := ∃ u v, l = u ++ p ++ v

/-- A string occurs contiguously inside another. -/
def strIncl (part whole : String) : Prop := isSub part.data whole.data

lemma strIncl_of_data (p w : String) (u v : List Char) (h : w.data = u ++ p.data ++ v) :
    strIncl p w := ⟨u, v, h⟩

/-! The domain-existence precondition. -/

/-- C7: in both the checkpoint and the config module, a domain listing that
parses but does not contain the requested domain makes the invocation fail
fatally with a message naming the requested state and domain, before any
action is dispatched: nothing is polled and the outcome is independent of
every response beyond the domain listing. -/
theorem c7_domain_must_exist (state dn cn : String) (envK : ChkEnv) (envC : CfgEnv)
    (p : CfgParams) (domsK domsC : List Json) :
    (envK.domainList.code = 200 → envK.domainList.reason = "OK" →
      configuredDomains envK.domainList.body = some domsK →
      domsK.any (fun j => isStrEq j dn) = false →
      chkpointMain state dn cn envK =
        ⟨[], .failJson (ERROR_REACH_STATE state dn ++ " " ++ ERROR_NOT_DOMAIN)⟩ ∧
      strIncl state (ERROR_REACH_STATE state dn ++ " " ++ ERROR_NOT_DOMAIN) ∧
      strIncl dn (ERROR_REACH_STATE state dn ++ " " ++ ERROR_NOT_DOMAIN) ∧
      (∀ env2 : ChkEnv, env2.domainList = envK.domainList →
        chkpointMain state dn cn env2 = chkpointMain state dn cn envK)) ∧
    (envC.domainList.code = 200 → envC.domainList.reason = "OK" →
      configuredDomains envC.domainList.body = some domsC →
      domsC.any (fun j => isStrEq j dn) = false →
      configMain state p dn envC =
        ⟨[], .failJson (ERROR_REACH_STATE state dn ++ " " ++ ERROR_NOT_DOMAIN)⟩ ∧
      (∀ env2 : CfgEnv, env2.domainList = envC.domainList →
        configMain state p dn env2 = configMain state p dn envC)) := by
  constructor
  · intro h1 h2 h3 h4
    obtain ⟨dl, act, det⟩ := envK
    obtain ⟨dlc, dlr, dlb⟩ := dl
    simp only at h1 h2 h3
    subst h1; subst h2
    have hmain : chkpointMain state dn cn ⟨⟨200, "OK", dlb⟩, act, det⟩ =
        ⟨[], .failJson (ERROR_REACH_STATE state dn ++ " " ++ ERROR_NOT_DOMAIN)⟩ := by
      simp [chkpointMain, h3, h4]
    refine ⟨hmain, ?_, ?_, ?_⟩
    · exact strIncl_of_data _ _ "Unable to reach state ".data
        ((" in domain " ++ dn ++ "." ++ " " ++ ERROR_NOT_DOMAIN).data)
        (by simp [ERROR_REACH_STATE, ERROR_NOT_DOMAIN, String.data_append])
    · exact strIncl_of_data _ _ ("Unable to reach state " ++ state ++ " in domain ").data
        (("." ++ " " ++ ERROR_NOT_DOMAIN).data)
        (by simp [ERROR_REACH_STATE, ERROR_NOT_DOMAIN, String.data_append])
    · intro env2 hdl
      obtain ⟨dl2, act2, det2⟩ := env2
      simp only at hdl
      subst hdl
      rw [hmain]
      simp [chkpointMain, h3, h4]
  · intro h1 h2 h3 h4
    obtain ⟨dl, ds, act, det, ar⟩ := envC
    obtain ⟨dlc, dlr, dlb⟩ := dl
    simp only at h1 h2 h3
    subst h1; subst h2
    have hmain : configMain state p dn ⟨⟨200, "OK", dlb⟩, ds, act, det, ar⟩ =
        ⟨[], .failJson (ERROR_REACH_STATE state dn ++ " " ++ ERROR_NOT_DOMAIN)⟩ := by
      simp [configMain, h3, h4]
    refine ⟨hmain, ?_⟩
    intro env2 hdl
    obtain ⟨dl2, ds2, act2, det2, ar2⟩ := env2
    simp only at hdl
    subst hdl
    rw [hmain]
    simp [configMain, h3, h4]

/-- Witness for C7: requesting domain `missing` when only `default` is
configured fails both modules with the precondition message. -/
theorem c7_domain_must_exist_witness :
    chkpointMain "present" "missing" "cp1"
        ⟨⟨200, "OK", .obj [("domain", .obj [("name", .str "default")])]⟩,
         ⟨202, "Accepted", .null⟩, ⟨200, "OK", .null⟩⟩ =
      ⟨[], .failJson (ERROR_REACH_STATE "present" "missing" ++ " " ++ ERROR_NOT_DOMAIN)⟩ ∧
    configMain "saved" {} "missing"
        ⟨⟨200, "OK", .obj [("domain", .obj [("name", .str "default")])]⟩,
         ⟨200, "OK", .null⟩, ⟨200, "OK", .null⟩, ⟨200, "OK", .null⟩, "completed"⟩ =
      ⟨[], .failJson (ERROR_REACH_STATE "saved" "missing" ++ " " ++ ERROR_NOT_DOMAIN)⟩ := by
  refine ⟨((c7_domain_must_exist "present" "missing" "cp1"
      ⟨⟨200, "OK", .obj [("domain", .obj [("name", .str "default")])]⟩,
       ⟨202, "Accepted", .null⟩, ⟨200, "OK", .null⟩⟩
      ⟨⟨200, "OK", .null⟩, ⟨200, "OK", .null⟩, ⟨200, "OK", .null⟩,
       ⟨200, "OK", .null⟩, "completed"⟩
      {} [.str "default"] [.str "default"]).1 rfl rfl rfl (by simp [isStrEq])).1, ?_⟩
  exact ((c7_domain_must_exist "saved" "missing" "cp1"
      ⟨⟨200, "OK", .null⟩, ⟨202, "Accepted", .null⟩, ⟨200, "OK", .null⟩⟩
      ⟨⟨200, "OK", .obj [("domain", .obj [("name", .str "default")])]⟩,
       ⟨200, "OK", .null⟩, ⟨200, "OK", .null⟩, ⟨200, "OK", .null⟩, "completed"⟩
      {} [.str "default"] [.str "default"]).2 rfl rfl rfl (by simp [isStrEq])).1

/-! Handling of 202 Accepted action responses. -/

/-- C6: for every action POST of the checkpoint module (present, absent,
restored) and of the config module (exported, reseted, imported, and saved
when a save is needed), a 202 Accepted response with a retrievable
`_links.location.href` always leads to polling exactly that location, and a
202 Accepted response without one always terminates as a fatal `fail_json`
with nothing polled. -/
theorem c6_202_polls_location_or_fails :
    (∀ (state dn cn : String) (env : ChkEnv) (doms : List Json),
      (state = "present" ∨ state = "absent" ∨ state = "restored") →
      env.domainList.code = 200 → env.domainList.reason = "OK" →
      configuredDomains env.domainList.body = some doms →
      doms.any (fun j => isStrEq j dn) = true →
      env.action.code = 202 → env.action.reason = "Accepted" →
      ((∀ h, getHref env.action.body = some h →
          (chkpointMain state dn cn env).polled = [h]) ∧
       (getHref env.action.body = none →
          (chkpointMain state dn cn env).polled = [] ∧
          ∃ m, (chkpointMain state dn cn env).out = .failJson m))) ∧
    (∀ (state : String) (p : CfgParams) (dn : String) (env : CfgEnv) (doms : List Json),
      (state = "exported" ∨ state = "reseted" ∨ state = "imported") →
      env.domainList.code = 200 → env.domainList.reason = "OK" →
      configuredDomains env.domainList.body = some doms →
      doms.any (fun j => isStrEq j dn) = true →
      env.action.code = 202 → env.action.reason = "Accepted" →
      ((∀ h, getHref env.action.body = some h →
          (configMain state p dn env).polled = [h]) ∧
       (getHref env.action.body = none →
          (configMain state p dn env).polled = [] ∧
          ∃ m, (configMain state p dn env).out = .failJson m))) ∧
    (∀ (p : CfgParams) (dn : String) (env : CfgEnv) (doms : List Json) (nv : Json),
      env.domainList.code = 200 → env.domainList.reason = "OK" →
      configuredDomains env.domainList.body = some doms →
      doms.any (fun j => isStrEq j dn) = true →
      env.domainStatus.code = 200 → env.domainStatus.reason = "OK" →
      saveNeededOf env.domainStatus.body dn = some nv → isStrEq nv "off" = false →
      env.action.code = 202 → env.action.reason = "Accepted" →
      ((∀ h, getHref env.action.body = some h →
          (configMain "saved" p dn env).polled = [h]) ∧
       (getHref env.action.body = none →
          (configMain "saved" p dn env).polled = [] ∧
          ∃ m, (configMain "saved" p dn env).out = .failJson m))) := by
  refine ⟨?_, ?_, ?_⟩
  · intro state dn cn env doms hstate h1 h2 h3 h4 h5 h6
    obtain ⟨dl, act, det⟩ := env
    obtain ⟨dlc, dlr, dlb⟩ := dl
    obtain ⟨ac, arr, ab⟩ := act
    simp only at h1 h2 h3 h5 h6
    subst h1; subst h2; subst h5; subst h6
    rcases hstate with rfl | rfl | rfl
    · constructor
      · intro h heq
        simp only at heq
        simp [chkpointMain, h3, h4, chkpointPresent, heq]
      · intro hnone
        simp only at hnone
        simp [chkpointMain, h3, h4, chkpointPresent, hnone, chkFinish]
    · constructor
      · intro h heq
        simp only at heq
        simp [chkpointMain, h3, h4, chkpointAbsent, heq]
      · intro hnone
        simp only at hnone
        simp [chkpointMain, h3, h4, chkpointAbsent, hnone, chkFinish]
    · constructor
      · intro h heq
        simp only at heq
        simp [chkpointMain, h3, h4, chkpointRestored, heq]
      · intro hnone
        simp only at hnone
        simp [chkpointMain, h3, h4, chkpointRestored, hnone, chkFinish]
  · intro state p dn env doms hstate h1 h2 h3 h4 h5 h6
    obtain ⟨dl, ds, act, det, ar⟩ := env
    obtain ⟨dlc, dlr, dlb⟩ := dl
    obtain ⟨ac, arr, ab⟩ := act
    simp only at h1 h2 h3 h5 h6
    subst h1; subst h2; subst h5; subst h6
    rcases hstate with rfl | rfl | rfl
    · constructor
      · intro h heq
        simp only at heq
        simp [configMain, h3, h4, cfgExport, heq]
      · intro hnone
        simp only at hnone
        simp [configMain, h3, h4, cfgExport, hnone, cfgFinish]
    · constructor
      · intro h heq
        simp only at heq
        simp [configMain, h3, h4, cfgReset, heq]
      · intro hnone
        simp only at hnone
        simp [configMain, h3, h4, cfgReset, hnone, cfgFinish]
    · constructor
      · intro h heq
        simp only at heq
        simp [configMain, h3, h4, cfgImport, heq]
      · intro hnone
        simp only at hnone
        simp [configMain, h3, h4, cfgImport, hnone, cfgFinish]
  · intro p dn env doms nv h1 h2 h3 h4 hd1 hd2 hnv hoff h5 h6
    obtain ⟨dl, ds, act, det, ar⟩ := env
    obtain ⟨dlc, dlr, dlb⟩ := dl
    obtain ⟨dsc, dsr, dsb⟩ := ds
    obtain ⟨ac, arr, ab⟩ := act
    simp only at h1 h2 h3 h5 h6 hd1 hd2 hnv
    subst h1; subst h2; subst h5; subst h6; subst hd1; subst hd2
    constructor
    · intro h heq
      simp only at heq
      simp [configMain, h3, h4, cfgSaved, hnv, hoff, heq]
    · intro hnone
      simp only at hnone
      simp [configMain, h3, h4, cfgSaved, hnv, hoff, hnone, cfgFinish]

/-- Witness for C6 at concrete inputs: a located 202 is polled in each
module, and a 202 without a location fails fatally with nothing polled. -/
theorem c6_202_polls_location_or_fails_witness :
    (chkpointMain "absent" "default" "cp1"
        ⟨⟨200, "OK", .obj [("domain", .obj [("name", .str "default")])]⟩,
         ⟨202, "Accepted", .obj [("_links", .obj [("location", .obj [("href", .str "/poll/7")])])]⟩,
         ⟨200, "OK", .obj [("status", .str "completed")]⟩⟩).polled = [.str "/poll/7"] ∧
    (configMain "saved" {} "default"
        ⟨⟨200, "OK", .obj [("domain", .obj [("name", .str "default")])]⟩,
         ⟨200, "OK", .obj [("DomainStatus", .obj [("SaveNeeded", .str "on")])]⟩,
         ⟨202, "Accepted", .obj [("_links", .obj [("location", .obj [("href", .str "/poll/9")])])]⟩,
         ⟨200, "OK", .null⟩, "completed"⟩).polled = [.str "/poll/9"] ∧
    ((chkpointMain "present" "default" "cp1"
        ⟨⟨200, "OK", .obj [("domain", .obj [("name", .str "default")])]⟩,
         ⟨202, "Accepted", .null⟩, ⟨200, "OK", .null⟩⟩).polled = [] ∧
     ∃ m, (chkpointMain "present" "default" "cp1"
        ⟨⟨200, "OK", .obj [("domain", .obj [("name", .str "default")])]⟩,
         ⟨202, "Accepted", .null⟩, ⟨200, "OK", .null⟩⟩).out = .failJson m) := by
  refine ⟨?_, ?_, ?_⟩
  · exact (c6_202_polls_location_or_fails.1 "absent" "default" "cp1"
      ⟨⟨200, "OK", .obj [("domain", .obj [("name", .str "default")])]⟩,
       ⟨202, "Accepted", .obj [("_links", .obj [("location", .obj [("href", .str "/poll/7")])])]⟩,
       ⟨200, "OK", .obj [("status", .str "completed")]⟩⟩ [.str "default"]
      (Or.inr (Or.inl rfl)) rfl rfl rfl (by simp [isStrEq]) rfl rfl).1 _ rfl
  · exact (c6_202_polls_location_or_fails.2.2 {} "default"
      ⟨⟨200, "OK", .obj [("domain", .obj [("name", .str "default")])]⟩,
       ⟨200, "OK", .obj [("DomainStatus", .obj [("SaveNeeded", .str "on")])]⟩,
       ⟨202, "Accepted", .obj [("_links", .obj [("location", .obj [("href", .str "/poll/9")])])]⟩,
       ⟨200, "OK", .null⟩, "completed"⟩ [.str "default"] (.str "on")
      rfl rfl rfl (by simp [isStrEq]) rfl rfl rfl rfl rfl rfl).1 _ rfl
  · exact (c6_202_polls_location_or_fails.1 "present" "default" "cp1"
      ⟨⟨200, "OK", .obj [("domain", .obj [("name", .str "default")])]⟩,
       ⟨202, "Accepted", .null⟩, ⟨200, "OK", .null⟩⟩ [.str "default"]
      (Or.inl rfl) rfl rfl rfl (by simp [isStrEq]) rfl rfl).2 rfl

/-! Removing a checkpoint that does not exist. -/

/-- C5: with state `absent`, a RemoveCheckpoint POST answered 400 Bad
Request whose error text contains the cannot-find phrase for the requested
checkpoint yields `changed` false, `failed` unset, and the immutable
already-in-desired-state message, with nothing polled. -/
theorem c5_remove_missing_checkpoint_is_noop (dn cn : String) (env : ChkEnv)
    (doms : List Json) (etext : String)
    (h1 : env.domainList.code = 200) (h2 : env.domainList.reason = "OK")
    (h3 : configuredDomains env.domainList.body = some doms)
    (h4 : doms.any (fun j => isStrEq j dn) = true)
    (h5 : env.action.code = 400) (h6 : env.action.reason = "Bad Request")
    (h7 : env.action.body.getField "error" = some (.str etext))
    (h8 : strContains ("Cannot find Configuration Checkpoint '" ++ cn ++ "'.") etext = true) :
    chkpointMain "absent" dn cn env =
      ⟨[], .exitJson [("changed", .bool false), ("name", .str cn), ("domain", .str dn),
                      ("msg", .str IMMUTABLE_MESSAGE)]⟩ ∧
    assocFind [("changed", Json.bool false), ("name", Json.str cn), ("domain", Json.str dn),
               ("msg", Json.str IMMUTABLE_MESSAGE)] "changed" = some (.bool false) ∧
    assocFind [("changed", Json.bool false), ("name", Json.str cn), ("domain", Json.str dn),
               ("msg", Json.str IMMUTABLE_MESSAGE)] "failed" = none ∧
    assocFind [("changed", Json.bool false), ("name", Json.str cn), ("domain", Json.str dn),
               ("msg", Json.str IMMUTABLE_MESSAGE)] "msg" = some (.str IMMUTABLE_MESSAGE) := by
  obtain ⟨dl, act, det⟩ := env
  obtain ⟨dlc, dlr, dlb⟩ := dl
  obtain ⟨ac, arr, ab⟩ := act
  simp only at h1 h2 h3 h5 h6 h7
  subst h1; subst h2; subst h5; subst h6
  refine ⟨?_, by simp [assocFind], by simp [assocFind], by simp [assocFind]⟩
  simp [chkpointMain, h3, h4, chkpointAbsent, h7, pyContains, h8, chkFinish, merge,
    chkTmpList, initResult, setKey]

/-- Witness for C5 at a concrete environment whose 400 body reports the
cannot-find message for the requested checkpoint `cpX`. -/
theorem c5_remove_missing_checkpoint_is_noop_witness :
    chkpointMain "absent" "default" "cpX"
        ⟨⟨200, "OK", .obj [("domain", .obj [("name", .str "default")])]⟩,
         ⟨400, "Bad Request",
          .obj [("error", .str "Cannot find Configuration Checkpoint 'cpX'.")]⟩,
         ⟨200, "OK", .null⟩⟩ =
      ⟨[], .exitJson [("changed", .bool false), ("name", .str "cpX"),
                      ("domain", .str "default"), ("msg", .str IMMUTABLE_MESSAGE)]⟩ :=
  (c5_remove_missing_checkpoint_is_noop "default" "cpX"
      ⟨⟨200, "OK", .obj [("domain", .obj [("name", .str "default")])]⟩,
       ⟨400, "Bad Request",
        .obj [("error", .str "Cannot find Configuration Checkpoint 'cpX'.")]⟩,
       ⟨200, "OK", .null⟩⟩
      [.str "default"] "Cannot find Configuration Checkpoint 'cpX'."
      rfl rfl rfl (by simp [isStrEq]) rfl rfl rfl (by decide)).1

/-! Characterization of the substring check, and uniqueness of a match
between two apostrophes. -/

lemma startsWithL_iff (p : List Char) : ∀ l, startsWithL p l = true ↔ ∃ t, l = p ++ t := by
  induction p with
  | nil => intro l; simp [startsWithL]
  | cons a as ih =>
    intro l
    cases l with
    | nil =>
      simp [startsWithL]
    | cons b bs =>
      rw [startsWithL]
      simp only [Bool.and_eq_true, beq_iff_eq, ih bs]
      constructor
      · rintro ⟨rfl, t, rfl⟩
        exact ⟨t, rfl⟩
      · rintro ⟨t, ht⟩
        rw [List.cons_append] at ht
        cases ht
        exact ⟨rfl, t, rfl⟩

lemma containsSub_iff (p : List Char) : ∀ l, containsSub p l = true ↔ isSub p l := by
  intro l
  induction l with
  | nil =>
    simp only [containsSub, startsWithL_iff, isSub]
    constructor
    · rintro ⟨t, ht⟩
      rcases List.append_eq_nil.mp ht.symm with ⟨rfl, rfl⟩
      exact ⟨[], [], rfl⟩
    · rintro ⟨u, v, huv⟩
      rcases List.append_eq_nil.mp (List.append_eq_nil.mp huv.symm).1 with ⟨rfl, rfl⟩
      exact ⟨v, huv⟩
  | cons c rest ih =>
    rw [containsSub]
    simp only [Bool.or_eq_true, startsWithL_iff, ih]
    constructor
    · rintro (⟨t, ht⟩ | ⟨u, v, huv⟩)
      · exact ⟨[], t, by simpa using ht⟩
      · exact ⟨c :: u, v, by simp [huv]⟩
    · rintro ⟨u, v, huv⟩
      cases u with
      | nil =>
        exact Or.inl ⟨v, by simpa using huv⟩
      | cons d u2 =>
        rw [List.cons_append, List.cons_append] at huv
        cases huv
        exact Or.inr ⟨u2, v, rfl⟩

lemma strContains_iff (pat s : String) : strContains pat s = true ↔ strIncl pat s :=
  containsSub_iff pat.data s.data

/-- The apostrophe character that delimits names in the device's error
phrases. -/
def apos : Char := Char.ofNat 39

lemma afreeSplit : ∀ (a b t u : List Char), apos ∉ a → apos ∉ b →
    a ++ apos :: t = b ++ apos :: u → a = b ∧ t = u := by
  intro a
  induction a with
  | nil =>
    intro b t u _ hb h
    cases b with
    | nil =>
      simp only [List.nil_append] at h
      cases h
      exact ⟨rfl, rfl⟩
    | cons d bs =>
      rw [List.nil_append, List.cons_append] at h
      cases h
      exact absurd (List.mem_cons_self _ _) hb
  | cons c as ih =>
    intro b t u ha hb h
    cases b with
    | nil =>
      rw [List.nil_append, List.cons_append] at h
      cases h
      exact absurd (List.mem_cons_self _ _) ha
    | cons d bs =>
      rw [List.cons_append, List.cons_append] at h
      injection h with h1 h2
      subst h1
      obtain ⟨rfl, rfl⟩ := ih bs t u (fun hm => ha (List.mem_cons_of_mem _ hm))
        (fun hm => hb (List.mem_cons_of_mem _ hm)) h2
      exact ⟨rfl, rfl⟩

lemma subTwoApos (x y u v : List Char) (hx : apos ∉ x) (hy : apos ∉ y)
    (hu : apos ∉ u) (hv : apos ∉ v)
    (h : isSub (x ++ apos :: (u ++ apos :: y)) (x ++ apos :: (v ++ apos :: y))) :
    u = v := by
  obtain ⟨pp, q, heq⟩ := h
  have hcnt : (x ++ apos :: (v ++ apos :: y)).count apos =
      pp.count apos + ((x ++ apos :: (u ++ apos :: y)).count apos + q.count apos) := by
    rw [heq]
    simp [List.count_append]
    omega
  have hL : (x ++ apos :: (v ++ apos :: y)).count apos = 2 := by
    simp [List.count_append, List.count_cons, List.count_eq_zero.mpr hx,
      List.count_eq_zero.mpr hv, List.count_eq_zero.mpr hy]
  have hM : (x ++ apos :: (u ++ apos :: y)).count apos = 2 := by
    simp [List.count_append, List.count_cons, List.count_eq_zero.mpr hx,
      List.count_eq_zero.mpr hu, List.count_eq_zero.mpr hy]
  have hpp : apos ∉ pp := by
    rw [hL, hM] at hcnt
    exact List.count_eq_zero.mp (by omega)
  have hq0 : q.count apos = 0 := by
    rw [hL, hM] at hcnt
    omega
  have heq2 : x ++ apos :: (v ++ apos :: y) = (pp ++ x) ++ apos :: (u ++ apos :: (y ++ q)) := by
    rw [heq]
    simp
  have hsplit := afreeSplit x (pp ++ x) (v ++ apos :: y) (u ++ apos :: (y ++ q)) hx
    (by
      intro hm
      rcases List.mem_append.mp hm with hm | hm
      · exact hpp hm
      · exact hx hm)
    heq2
  obtain ⟨hvu, _⟩ := afreeSplit v u y (y ++ q) hv hu hsplit.2
  exact hvu.symm

/-- The device's already-exists phrase for a checkpoint name, exactly as the
module interpolates it (`idg_domain_chkpoint.py:231`). -/
def alreadyExistsMsg (name : String) : String :=
  "Configuration Checkpoint '" ++ name ++ "' already exists."

lemma alreadyExistsMsg_data (n : String) :
    (alreadyExistsMsg n).data =
      ("Configuration Checkpoint " : String).data ++
        apos :: (n.data ++ apos :: (" already exists." : String).data) := by
  have h1 : ("Configuration Checkpoint '" : String).data =
      ("Configuration Checkpoint " : String).data ++ [apos] := by decide
  have h2 : ("' already exists." : String).data =
      apos :: (" already exists." : String).data := by decide
  simp [alreadyExistsMsg, String.data_append, h1, h2]
  decide

lemma apos_not_mem_existsPrefix : apos ∉ ("Configuration Checkpoint " : String).data := by
  decide

lemma apos_not_mem_existsSuffix : apos ∉ (" already exists." : String).data := by
  decide

/-- The substring check the module performs against the already-exists
phrase matches another interpolated instance of the phrase exactly when the
names agree — provided neither name contains an apostrophe. -/
lemma alreadyExists_contains_iff (n m : String) (hn : apos ∉ n.data) (hm : apos ∉ m.data) :
    strContains (alreadyExistsMsg n) (alreadyExistsMsg m) = true ↔ n = m := by
  rw [strContains_iff]
  unfold strIncl
  rw [alreadyExistsMsg_data, alreadyExistsMsg_data]
  constructor
  · intro h
    have hdata : n.data = m.data :=
      subTwoApos _ _ n.data m.data apos_not_mem_existsPrefix apos_not_mem_existsSuffix
        hn hm h
    cases n; cases m
    exact congrArg String.mk hdata
  · rintro rfl
    exact ⟨[], [], by simp⟩

lemma isStrEq_str (s t : String) : isStrEq (.str s) t = (s == t) := rfl

/-- C4 (amended): when the create-checkpoint final detail reports an error
whose text is the already-exists phrase for some checkpoint name — names
containing no apostrophe — the outcome is the idempotent no-op (immutable
message, `changed` false, `failed` unset) exactly when that name is the
requested one, and otherwise a hard failure whose message carries the module
name, the requested state, the domain, and the device's raw error text. -/
theorem c4_already_exists_idempotent_iff_same_name
    (dn n m : String) (env : ChkEnv) (doms : List Json) (href : Json)
    (hn : apos ∉ n.data) (hm : apos ∉ m.data)
    (h1 : env.domainList.code = 200) (h2 : env.domainList.reason = "OK")
    (h3 : configuredDomains env.domainList.body = some doms)
    (h4 : doms.any (fun j => isStrEq j dn) = true)
    (h5 : env.action.code = 202) (h6 : env.action.reason = "Accepted")
    (h7 : getHref env.action.body = some href)
    (h8 : env.detail.code = 200) (h9 : env.detail.reason = "OK")
    (h10 : env.detail.body.getField "status" = some (.str "error"))
    (h11 : env.detail.body.getField "error" = some (.str (alreadyExistsMsg m))) :
    (m = n →
      (chkpointMain "present" dn n env).out =
        .exitJson [("changed", .bool false), ("name", .str n), ("domain", .str dn),
                   ("msg", .str IMMUTABLE_MESSAGE)]) ∧
    (m ≠ n →
      (chkpointMain "present" dn n env).out =
        .exitJson [("changed", .bool false), ("name", .str n), ("domain", .str dn),
                   ("msg", .str (GENERAL_ERROR CHKPOINT_MODULE_FULLNAME "present" dn ++
                      alreadyExistsMsg m)),
                   ("failed", .bool true)] ∧
      strIncl CHKPOINT_MODULE_FULLNAME
        (GENERAL_ERROR CHKPOINT_MODULE_FULLNAME "present" dn ++ alreadyExistsMsg m) ∧
      strIncl "present"
        (GENERAL_ERROR CHKPOINT_MODULE_FULLNAME "present" dn ++ alreadyExistsMsg m) ∧
      strIncl dn
        (GENERAL_ERROR CHKPOINT_MODULE_FULLNAME "present" dn ++ alreadyExistsMsg m) ∧
      strIncl (alreadyExistsMsg m)
        (GENERAL_ERROR CHKPOINT_MODULE_FULLNAME "present" dn ++ alreadyExistsMsg m)) := by
  obtain ⟨dl, act, det⟩ := env
  obtain ⟨dlc, dlr, dlb⟩ := dl
  obtain ⟨ac, arr, ab⟩ := act
  obtain ⟨dc, dr, db⟩ := det
  simp only at h1 h2 h3 h5 h6 h7 h8 h9 h10 h11
  subst h1; subst h2; subst h5; subst h6; subst h8; subst h9
  constructor
  · rintro rfl
    have hcls := (alreadyExists_contains_iff m m hm hm).mpr rfl
    simp only [alreadyExistsMsg] at hcls h11
    simp [chkpointMain, h3, h4, chkpointPresent, h7, chkpointDetailPresent, h10, h11,
      isStrEq_str, pyContains, hcls, chkFinish, merge, chkTmpList, initResult, setKey]
  · intro hne
    have hncls : strContains (alreadyExistsMsg n) (alreadyExistsMsg m) = false := by
      cases hb : strContains (alreadyExistsMsg n) (alreadyExistsMsg m)
      · rfl
      · exact absurd ((alreadyExists_contains_iff n m hn hm).mp hb)
          (fun he => hne he.symm)
    refine ⟨?_, ?_, ?_, ?_, ?_⟩
    · have h11' := h11
      simp only [alreadyExistsMsg] at hncls h11'
      simp [chkpointMain, h3, h4, chkpointPresent, h7, chkpointDetailPresent, h10, h11',
        isStrEq_str, pyContains, hncls, chkFinish, merge, chkTmpList, initResult, setKey,
        errorHandlerText, alreadyExistsMsg]
    · exact strIncl_of_data _ _ ("Module " : String).data
        ((": error trying to reach state " ++ "present" ++ " in domain " ++ dn ++ ". " ++
          alreadyExistsMsg m).data)
        (by simp [GENERAL_ERROR, String.data_append])
    · exact strIncl_of_data _ _ ("Module " ++ CHKPOINT_MODULE_FULLNAME ++
          ": error trying to reach state ").data
        ((" in domain " ++ dn ++ ". " ++ alreadyExistsMsg m).data)
        (by simp [GENERAL_ERROR, String.data_append])
    · exact strIncl_of_data _ _ ("Module " ++ CHKPOINT_MODULE_FULLNAME ++
          ": error trying to reach state " ++ "present" ++ " in domain ").data
        ((". " ++ alreadyExistsMsg m).data)
        (by simp [GENERAL_ERROR, String.data_append])
    · exact strIncl_of_data _ _
        (GENERAL_ERROR CHKPOINT_MODULE_FULLNAME "present" dn).data []
        (by simp [String.data_append])

/-- Counterexample to C4 as frozen: with requested name `y`, the device
message naming the *different* checkpoint
`x' already exists. Configuration Checkpoint 'y` is still classified as the
idempotent no-op, because the already-exists phrase for `y` occurs as a
substring of the message for that other name. -/
theorem c4_substring_match_counterexample :
    ("x' already exists. Configuration Checkpoint 'y" : String) ≠ "y" ∧
    (chkpointMain "present" "default" "y"
        ⟨⟨200, "OK", .obj [("domain", .obj [("name", .str "default")])]⟩,
         ⟨202, "Accepted",
          .obj [("_links", .obj [("location", .obj [("href", .str "/p")])])]⟩,
         ⟨200, "OK",
          .obj [("status", .str "error"),
                ("error", .str (alreadyExistsMsg
                  "x' already exists. Configuration Checkpoint 'y"))]⟩⟩).out =
      .exitJson [("changed", .bool false), ("name", .str "y"), ("domain", .str "default"),
                 ("msg", .str IMMUTABLE_MESSAGE)] :=
  ⟨by decide, by rfl⟩

/-- Witness for C4 at apostrophe-free names: the matching name `cp1` is a
no-op, the non-matching name `cp2` is a hard failure. -/
theorem c4_already_exists_idempotent_iff_same_name_witness :
    (chkpointMain "present" "default" "cp1"
        ⟨⟨200, "OK", .obj [("domain", .obj [("name", .str "default")])]⟩,
         ⟨202, "Accepted",
          .obj [("_links", .obj [("location", .obj [("href", .str "/p")])])]⟩,
         ⟨200, "OK",
          .obj [("status", .str "error"),
                ("error", .str (alreadyExistsMsg "cp1"))]⟩⟩).out =
      .exitJson [("changed", .bool false), ("name", .str "cp1"), ("domain", .str "default"),
                 ("msg", .str IMMUTABLE_MESSAGE)] ∧
    (chkpointMain "present" "default" "cp1"
        ⟨⟨200, "OK", .obj [("domain", .obj [("name", .str "default")])]⟩,
         ⟨202, "Accepted",
          .obj [("_links", .obj [("location", .obj [("href", .str "/p")])])]⟩,
         ⟨200, "OK",
          .obj [("status", .str "error"),
                ("error", .str (alreadyExistsMsg "cp2"))]⟩⟩).out =
      .exitJson [("changed", .bool false), ("name", .str "cp1"), ("domain", .str "default"),
                 ("msg", .str (GENERAL_ERROR CHKPOINT_MODULE_FULLNAME "present" "default" ++
                    alreadyExistsMsg "cp2")),
                 ("failed", .bool true)] :=
  ⟨(c4_already_exists_idempotent_iff_same_name "default" "cp1" "cp1"
      ⟨⟨200, "OK", .obj [("domain", .obj [("name", .str "default")])]⟩,
       ⟨202, "Accepted",
        .obj [("_links", .obj [("location", .obj [("href", .str "/p")])])]⟩,
       ⟨200, "OK",
        .obj [("status", .str "error"), ("error", .str (alreadyExistsMsg "cp1"))]⟩⟩
      [.str "default"] (.str "/p") (by decide) (by decide)
      rfl rfl rfl (by simp [isStrEq]) rfl rfl rfl rfl rfl rfl rfl).1 rfl,
   ((c4_already_exists_idempotent_iff_same_name "default" "cp1" "cp2"
      ⟨⟨200, "OK", .obj [("domain", .obj [("name", .str "default")])]⟩,
       ⟨202, "Accepted",
        .obj [("_links", .obj [("location", .obj [("href", .str "/p")])])]⟩,
       ⟨200, "OK",
        .obj [("status", .str "error"), ("error", .str (alreadyExistsMsg "cp2"))]⟩⟩
      [.str "default"] (.str "/p") (by decide) (by decide)
      rfl rfl rfl (by simp [isStrEq]) rfl rfl rfl rfl rfl rfl rfl).2 (by decide)).1⟩

/-! Error-reporting detail bodies and the `changed` flag. -/

lemma chkFinish_exit (cn dn : String) (t : Except String ChkTmp) (r : List (String × Json))
    (h : chkFinish cn dn t = .exitJson r) :
    ∃ tm, t = .ok tm ∧ r = merge initResult (chkTmpList cn dn tm) := by
  cases t with
  | error m => simp [chkFinish] at h
  | ok tm =>
    refine ⟨tm, rfl, ?_⟩
    simp only [chkFinish, Out.exitJson.injEq] at h
    exact h.symm

lemma cfgFinish_exit (dn : String) (t : Except String CfgTmp) (r : List (String × Json))
    (h : cfgFinish dn t = .exitJson r) :
    ∃ tm, t = .ok tm ∧ r = merge initResult (cfgTmpList dn tm) := by
  cases t with
  | error m => simp [cfgFinish] at h
  | ok tm =>
    refine ⟨tm, rfl, ?_⟩
    simp only [cfgFinish, Out.exitJson.injEq] at h
    exact h.symm

lemma chkChanged_lookup (cn dn : String) (tm : ChkTmp)
    (h : tm.changed = some (.bool false)) :
    assocFind (merge initResult (chkTmpList cn dn tm)) "changed" = some (.bool false) := by
  apply merge_mem
  · simp [chkTmpList]
  · simp [chkTmpList, h]

lemma cfgChanged_lookup (dn : String) (tm : CfgTmp)
    (h : tm.changed = some (.bool false)) :
    assocFind (merge initResult (cfgTmpList dn tm)) "changed" = some (.bool false) := by
  apply merge_mem
  · simp [cfgTmpList]
  · simp [cfgTmpList, h]

lemma chkpointDetailPresent_error_changed (state dn cn : String) (d : HttpResp)
    (hstatus : d.body.getField "status" = some (.str "error")) :
    ∀ tm, chkpointDetailPresent state dn cn d = .ok tm →
      tm.changed = some (.bool false) := by
  intro tm h
  by_cases hd : d.code = 200 ∧ d.reason = "OK"
  · cases he : d.body.getField "error" with
    | none =>
      simp [chkpointDetailPresent, hd, hstatus, he, isStrEq_str] at h
    | some err =>
      cases hp : pyContains ("Configuration Checkpoint '" ++ cn ++ "' already exists.") err with
      | none =>
        simp [chkpointDetailPresent, hd, hstatus, he, hp, isStrEq_str] at h
      | some b =>
        cases b
        · simp [chkpointDetailPresent, hd, hstatus, he, hp, isStrEq_str] at h
          rw [← h]
        · simp [chkpointDetailPresent, hd, hstatus, he, hp, isStrEq_str] at h
          rw [← h]
  · simp [chkpointDetailPresent, hd] at h

lemma chkpointDetailAbsent_error_changed (state dn : String) (d : HttpResp)
    (hstatus : d.body.getField "status" = some (.str "error")) :
    ∀ tm, chkpointDetailAbsent state dn d = .ok tm →
      tm.changed = some (.bool false) := by
  intro tm h
  by_cases hd : d.code = 200 ∧ d.reason = "OK"
  · cases he : d.body.getField "error" with
    | none =>
      simp [chkpointDetailAbsent, hd, hstatus, he, isStrEq_str] at h
    | some err =>
      simp [chkpointDetailAbsent, hd, hstatus, he, isStrEq_str] at h
      rw [← h]
  · simp [chkpointDetailAbsent, hd] at h

lemma cfgImportDetail_error_changed (state dn : String) (d : HttpResp) (ir de : Json)
    (hir : ((d.body.getField "result").bind (fun v => v.getField "Import")).bind
      (fun v => v.getField "import-results") = some ir)
    (hde : ir.getField "detected-errors" = some de)
    (hneq : isStrEq de "false" = false) :
    ∀ tm, cfgImportDetail state dn d = .ok tm → tm.changed = some (.bool false) := by
  intro tm h
  by_cases hd : d.code = 200 ∧ d.reason = "OK"
  · cases he : de.getField "error" with
    | none =>
      simp [cfgImportDetail, hd, hir, hde, hneq, he] at h
    | some ev =>
      rcases ev with _ | b | nn | e | l | f
      · simp [cfgImportDetail, hd, hir, hde, hneq, he] at h
      · simp [cfgImportDetail, hd, hir, hde, hneq, he] at h
      · simp [cfgImportDetail, hd, hir, hde, hneq, he] at h
      · simp [cfgImportDetail, hd, hir, hde, hneq, he] at h
        rw [← h]
      · simp [cfgImportDetail, hd, hir, hde, hneq, he] at h
      · simp [cfgImportDetail, hd, hir, hde, hneq, he] at h
  · simp [cfgImportDetail, hd] at h

/-- C2 (amended): in the checkpoint module (every state) and in the config
module's import handler, an asynchronous action whose final detail body
reports an error — a `status` of `"error"`, or a `detected-errors` indicator
other than the string `"false"` — never produces a result record with
`changed` true: every successful exit carries `changed` false.  (The config
module's export, reset and saved handlers do not inspect these indicators;
see the counterexample.) -/
theorem c2_error_body_never_changed_true :
    (∀ (state dn cn : String) (env : ChkEnv) (doms : List Json),
      env.domainList.code = 200 → env.domainList.reason = "OK" →
      configuredDomains env.domainList.body = some doms →
      doms.any (fun j => isStrEq j dn) = true →
      env.action.code = 202 → env.action.reason = "Accepted" →
      env.detail.body.getField "status" = some (.str "error") →
      ∀ r, (chkpointMain state dn cn env).out = .exitJson r →
        assocFind r "changed" = some (.bool false)) ∧
    (∀ (p : CfgParams) (dn : String) (env : CfgEnv) (doms : List Json) (ir de : Json),
      env.domainList.code = 200 → env.domainList.reason = "OK" →
      configuredDomains env.domainList.body = some doms →
      doms.any (fun j => isStrEq j dn) = true →
      env.action.code = 202 → env.action.reason = "Accepted" →
      ((env.detail.body.getField "result").bind (fun v => v.getField "Import")).bind
        (fun v => v.getField "import-results") = some ir →
      ir.getField "detected-errors" = some de →
      isStrEq de "false" = false →
      ∀ r, (configMain "imported" p dn env).out = .exitJson r →
        assocFind r "changed" = some (.bool false)) := by
  constructor
  · intro state dn cn env doms h1 h2 h3 h4 h5 h6 hstatus r hr
    obtain ⟨dl, act, det⟩ := env
    obtain ⟨dlc, dlr, dlb⟩ := dl
    obtain ⟨ac, arr, ab⟩ := act
    simp only at h1 h2 h3 h5 h6 hstatus hr
    subst h1; subst h2; subst h5; subst h6
    by_cases hs1 : state = "present"
    · subst hs1
      cases hh : getHref ab with
      | none =>
        simp [chkpointMain, h3, h4, chkpointPresent, hh, chkFinish] at hr
      | some href =>
        simp only [chkpointMain] at hr
        simp [h3, h4, chkpointPresent, hh] at hr
        obtain ⟨tm, hok, rfl⟩ := chkFinish_exit cn dn _ r hr
        exact chkChanged_lookup cn dn tm
          (chkpointDetailPresent_error_changed "present" dn cn _ hstatus tm hok)
    · by_cases hs2 : state = "absent"
      · subst hs2
        cases hh : getHref ab with
        | none =>
          simp [chkpointMain, h3, h4, chkpointAbsent, hh, chkFinish, hs1] at hr
        | some href =>
          simp only [chkpointMain] at hr
          simp [h3, h4, chkpointAbsent, hh, hs1] at hr
          obtain ⟨tm, hok, rfl⟩ := chkFinish_exit cn dn _ r hr
          exact chkChanged_lookup cn dn tm
            (chkpointDetailAbsent_error_changed "absent" dn _ hstatus tm hok)
      · by_cases hs3 : state = "restored"
        · subst hs3
          cases hh : getHref ab with
          | none =>
            simp [chkpointMain, h3, h4, chkpointRestored, hh, chkFinish, hs1, hs2] at hr
          | some href =>
            simp only [chkpointMain] at hr
            simp [h3, h4, chkpointRestored, hh, hs1, hs2] at hr
            obtain ⟨tm, hok, rfl⟩ := chkFinish_exit cn dn _ r hr
            exact chkChanged_lookup cn dn tm
              (chkpointDetailAbsent_error_changed "restored" dn _ hstatus tm hok)
        · simp [chkpointMain, h3, h4, hs1, hs2, hs3, chkFinish, merge, chkTmpList,
            initResult, setKey] at hr
          subst hr
          simp [assocFind]
  · intro p dn env doms ir de h1 h2 h3 h4 h5 h6 hir hde hneq r hr
    obtain ⟨dl, ds, act, det, ar⟩ := env
    obtain ⟨dlc, dlr, dlb⟩ := dl
    obtain ⟨ac, arr, ab⟩ := act
    simp only at h1 h2 h3 h5 h6 hir hr
    subst h1; subst h2; subst h5; subst h6
    cases hh : getHref ab with
    | none =>
      simp [configMain, h3, h4, cfgImport, hh, cfgFinish] at hr
    | some href =>
      simp only [configMain] at hr
      simp [h3, h4, cfgImport, hh] at hr
      obtain ⟨tm, hok, rfl⟩ := cfgFinish_exit dn _ r hr
      exact cfgChanged_lookup dn tm
        (cfgImportDetail_error_changed "imported" dn _ ir de hir hde hneq tm hok)

/-- Counterexample to C2 as frozen: the config module's reset handler does
not inspect the final detail's error indicator — a detail body with status
`"error"` still yields a successful exit with `changed` true (and message
`Error`). -/
theorem c2_error_body_counterexample :
    (HttpResp.mk 200 "OK" (.obj [("status", .str "error")])).body.getField "status" =
      some (.str "error") ∧
    configMain "reseted" {} "default"
        ⟨⟨200, "OK", .obj [("domain", .obj [("name", .str "default")])]⟩,
         ⟨200, "OK", .null⟩,
         ⟨202, "Accepted",
          .obj [("_links", .obj [("location", .obj [("href", .str "/p")])])]⟩,
         ⟨200, "OK", .obj [("status", .str "error")]⟩, "completed"⟩ =
      ⟨[.str "/p"],
       .exitJson [("changed", .bool true), ("name", .str "default"),
                  ("msg", .str "Error")]⟩ :=
  ⟨rfl, rfl⟩

/-- Witness for C2 (amended) at a concrete environment: an error-reporting
create-checkpoint detail exits with `changed` false. -/
theorem c2_error_body_never_changed_true_witness :
    (HttpResp.mk 200 "OK"
        (.obj [("status", .str "error"),
               ("error", .str "Configuration Checkpoint 'cp1' already exists.")])).body.getField
      "status" = some (.str "error") ∧
    assocFind [("changed", Json.bool false), ("name", Json.str "cp1"),
               ("domain", Json.str "default"), ("msg", Json.str IMMUTABLE_MESSAGE)]
      "changed" = some (.bool false) :=
  ⟨rfl,
   c2_error_body_never_changed_true.1 "present" "default" "cp1"
    ⟨⟨200, "OK", .obj [("domain", .obj [("name", .str "default")])]⟩,
     ⟨202, "Accepted",
      .obj [("_links", .obj [("location", .obj [("href", .str "/p")])])]⟩,
     ⟨200, "OK",
      .obj [("status", .str "error"),
            ("error", .str "Configuration Checkpoint 'cp1' already exists.")]⟩⟩
    [.str "default"] rfl rfl rfl (by simp [isStrEq]) rfl rfl rfl
    [("changed", Json.bool false), ("name", Json.str "cp1"),
     ("domain", Json.str "default"), ("msg", Json.str IMMUTABLE_MESSAGE)] (by rfl)⟩

end DPAnsible
